import Mathlib

/-!
Shallow embedding of the virtio-iommu address-space/domain mapping engine of
this repository (src/hw/vfio/ioas.c).  The file concatenates two successive
variants of the device:

* namespace VA - the variant at lines 283-966 (interval_cmp with strict "<",
  translate initialises perm to IOMMU_NONE, bypass feature, unmap returns
  VIRTIO_IOMMU_S_RANGE on a forbidden split);
* namespace VB - the variant at lines 967-2072 (interval_cmp with "<=",
  translate initialises perm to the requested flag, notifier fan-out,
  PROBE support, unmap returns VIRTIO_IOMMU_S_INVAL on a forbidden split).

GLib GTree structures keyed by viommu_interval under interval_cmp are
modelled as lists kept in comparator order; g_tree_lookup /
g_tree_lookup_extended / g_tree_remove resolve to the first (leftmost)
stored key that compares equal (i.e. overlaps) - the standard
determinization of the balanced-tree search, which coincides with the tree
behaviour whenever the stored keys are pairwise comparator-disjoint (the
invariant the code maintains).  Machine integers are Nat with explicit
mod 2^64 where the C code can wrap.
-/

def U64 : Nat := 2 ^ 64

/-- C uint64 addition (wraps at 2^64). -/
def add64 (a b : Nat) : Nat := (a + b) % U64

/-- C uint64 subtraction a - b (wraps at 2^64, for a b < 2^64). -/
def sub64 (a b : Nat) : Nat := (a + (U64 - b % U64)) % U64

/-- The inclusive upper bound virt_addr + size - 1 computed in uint64
arithmetic (wraps for size = 0). -/
def reqHigh (virt size : Nat) : Nat := (virt + size + (U64 - 1)) % U64

/- virtio-iommu request status codes (standard-headers). -/
def VIRTIO_IOMMU_S_OK : Int := 0
def VIRTIO_IOMMU_S_IOERR : Int := 1
def VIRTIO_IOMMU_S_UNSUPP : Int := 2
def VIRTIO_IOMMU_S_DEVERR : Int := 3
def VIRTIO_IOMMU_S_INVAL : Int := 4
def VIRTIO_IOMMU_S_RANGE : Int := 5
def VIRTIO_IOMMU_S_NOENT : Int := 6

/- IOMMU access flags (exec/memory.h) and mapping permission flags. -/
def IOMMU_NONE : Nat := 0
def IOMMU_RO : Nat := 1
def IOMMU_WO : Nat := 2
def VIRTIO_IOMMU_MAP_F_READ : Nat := 1
def VIRTIO_IOMMU_MAP_F_WRITE : Nat := 2

/- errno values used by the probe path. -/
def EINVAL : Int := 22
def ENOENT : Int := 2
def ENOSPC : Int := 28

/-- Half-open/inclusive interval key of the GTree (viommu_interval). -/
structure viommu_interval where
  low : Nat
  high : Nat
deriving DecidableEq, Repr

/-- TLB entry returned by the translate callbacks (IOMMUTLBEntry; the
addr_mask field, derived from config.page_size_mask, is 4K-page based in
both variants). -/
structure IOMMUTLBEntry where
  iova : Nat
  translated_addr : Nat
  addr_mask : Nat
  perm : Nat
deriving DecidableEq, Repr

/-- addr_mask value (1 << ctz32(TARGET_PAGE_MASK)) - 1 for 4K target pages. -/
def pageMask : Nat := 4095

namespace VB

/-- Mapping value stored in the interval tree (variant B viommu_mapping). -/
structure viommu_mapping where
  virt_addr : Nat
  phys_addr : Nat
  size : Nat
  flags : Nat
deriving DecidableEq, Repr

/-- Reserved-memory record of a device (struct virtio_iommu_probe_resv_mem,
fields per the trace call: subtype, addr, size, flags). -/
structure resv_mem where
  subtype : Nat
  addr : Nat
  size : Nat
  flags : Nat
deriving DecidableEq, Repr

/-- Address space (variant B viommu_as).  refs models the GTree reference
count of the mappings tree (1 at g_tree_new_full, +1 per g_tree_ref). -/
structure viommu_as where
  id : Nat
  mappings : List (viommu_interval × viommu_mapping)
  refs : Nat
  device_list : List Nat
deriving DecidableEq, Repr

/-- Device (variant B viommu_dev); as is the id of the attached address
space, if any. -/
structure viommu_dev where
  id : Nat
  as : Option Nat
  reserved_regions : List resv_mem
deriving DecidableEq, Repr

/-- Notifier fan-out events (virtio_iommu_notify_map / notify_unmap),
tagged with the devfn of the notifier node they are delivered to. -/
inductive Event where
  | map (devfn iova paddr size : Nat)
  | unmap (devfn iova size : Nat)
deriving DecidableEq, Repr

/-- Engine state of variant B: the s->address_spaces and s->devices GTrees
as association lists, and s->notifiers_list as the list of registered
notifier devfns. -/
structure State where
  address_spaces : List (Nat × viommu_as)
  devices : List (Nat × viommu_dev)
  notifiers : List Nat
deriving DecidableEq, Repr

def emptyState : State := { address_spaces := [], devices := [], notifiers := [] }

/-- interval_cmp of variant B (lines 1050-1062): two intervals compare
equal iff neither high <= the other's low. -/
def interval_cmp (a b : viommu_interval) : Int :=
  if a.high ≤ b.low then -1 else if b.high ≤ a.low then 1 else 0

/-- g_tree_lookup on a mappings tree: first stored entry whose key
compares equal to the query interval. -/
def lookupMapping (m : List (viommu_interval × viommu_mapping))
    (q : viommu_interval) : Option (viommu_interval × viommu_mapping) :=
  m.find? (fun e => interval_cmp q e.1 == 0)

/-- g_tree_insert of a key that compares equal to no stored key: placed at
its in-order position. -/
def insertMapping (m : List (viommu_interval × viommu_mapping))
    (i : viommu_interval) (mp : viommu_mapping) :
    List (viommu_interval × viommu_mapping) :=
  match m with
  | [] => [(i, mp)]
  | e :: rest =>
    if interval_cmp i e.1 == -1 then (i, mp) :: e :: rest
    else e :: insertMapping rest i mp

/-- g_tree_remove: removes the first stored entry whose key compares equal
to the given interval (no-op when none does). -/
def removeMapping (m : List (viommu_interval × viommu_mapping))
    (q : viommu_interval) : List (viommu_interval × viommu_mapping) :=
  match m.find? (fun e => interval_cmp q e.1 == 0) with
  | some e => m.erase e
  | none => m

def lookupAs (s : State) (asid : Nat) : Option viommu_as :=
  (s.address_spaces.find? (fun p => p.1 == asid)).map (·.2)

def lookupDev (s : State) (devid : Nat) : Option viommu_dev :=
  (s.devices.find? (fun p => p.1 == devid)).map (·.2)

/-- Update the association-list entry for a key (first occurrence). -/
def updAssoc {α : Type} (l : List (Nat × α)) (k : Nat) (f : α → α) :
    List (Nat × α) :=
  match l with
  | [] => []
  | p :: rest => if p.1 == k then (p.1, f p.2) :: rest else p :: updAssoc rest k f

def setAs (s : State) (asid : Nat) (a : viommu_as) : State :=
  { s with address_spaces := updAssoc s.address_spaces asid (fun _ => a) }

def setDevAs (s : State) (devid : Nat) (v : Option Nat) : State :=
  { s with devices := updAssoc s.devices devid (fun d => { d with as := v }) }

end VB

namespace VB

/-- virtio_iommu_get_dev (lines 1135-1152): lookup, lazily creating the
device (no attachment, empty reserved-region tree) when absent. -/
def get_dev (s : State) (devid : Nat) : State × viommu_dev :=
  match lookupDev s devid with
  | some d => (s, d)
  | none =>
    let d : viommu_dev := { id := devid, as := none, reserved_regions := [] }
    ({ s with devices := (devid, d) :: s.devices }, d)

/-- virtio_iommu_get_as (lines 1169-1186): lookup, lazily creating the
address space (empty mappings tree with reference count 1) when absent. -/
def get_as (s : State) (asid : Nat) : State × viommu_as :=
  match lookupAs s asid with
  | some a => (s, a)
  | none =>
    let a : viommu_as := { id := asid, mappings := [], refs := 1, device_list := [] }
    ({ s with address_spaces := (asid, a) :: s.address_spaces }, a)

/-- Events emitted by one QLIST_FOREACH over s->notifiers_list guarded by
dev->id == node->iommu_dev->devfn, delivering one event per mapping. -/
def eventsFor (notifiers : List Nat) (devid : Nat)
    (mk : viommu_interval × viommu_mapping → Event)
    (m : List (viommu_interval × viommu_mapping)) : List Event :=
  notifiers.flatMap (fun n => if devid == n then m.map mk else [])

/-- virtio_iommu_detach_dev_from_as (lines 1119-1133): notify an unmap of
every mapping of the attached address space to each notifier registered
for the device, remove the device from the as's device list and clear the
attachment.  (This variant does not g_tree_unref the mappings tree.) -/
def detach_dev_from_as (s : State) (devid : Nat) : State × List Event :=
  match lookupDev s devid with
  | none => (s, [])
  | some d =>
    match d.as with
    | none => (s, [])
    | some old =>
      match lookupAs s old with
      | none => (setDevAs s devid none, [])
      | some oa =>
        let ev := eventsFor s.notifiers devid
          (fun e => Event.unmap devid e.2.virt_addr e.2.size) oa.mappings
        (setDevAs (setAs s old { oa with device_list := oa.device_list.erase devid })
          devid none, ev)

/-- virtio_iommu_attach (lines 1258-1298): reject a nonzero reserved
field; lazily create the device; implicitly detach it when already
attached; lazily create the target address space; insert the device at
the head of its device list, record the attachment, take a reference on
the mappings tree, and replay every existing mapping of the target as a
map event to each notifier registered for the device. -/
def attach (s : State) (asid devid reserved : Nat) : State × Int × List Event :=
  if reserved != 0 then (s, VIRTIO_IOMMU_S_INVAL, []) else
  let r1 := get_dev s devid
  let r2 :=
    match r1.2.as with
    | some _ => detach_dev_from_as r1.1 devid
    | none => (r1.1, [])
  let r3 := get_as r2.1 asid
  let a := r3.2
  let s4 := setAs r3.1 asid
    { a with device_list := devid :: a.device_list, refs := a.refs + 1 }
  let s5 := setDevAs s4 devid (some asid)
  let replay := eventsFor s.notifiers devid
    (fun e => Event.map devid e.2.virt_addr e.2.phys_addr e.2.size) a.mappings
  (s5, VIRTIO_IOMMU_S_OK, r2.2 ++ replay)

/-- virtio_iommu_detach (lines 1300-1323): reject a nonzero reserved
field; NOENT for an unknown device, INVAL for an unattached one,
otherwise detach. -/
def detach (s : State) (devid reserved : Nat) : State × Int × List Event :=
  if reserved != 0 then (s, VIRTIO_IOMMU_S_INVAL, []) else
  match lookupDev s devid with
  | none => (s, VIRTIO_IOMMU_S_NOENT, [])
  | some d =>
    match d.as with
    | none => (s, VIRTIO_IOMMU_S_INVAL, [])
    | some _ =>
      let r := detach_dev_from_as s devid
      (r.1, VIRTIO_IOMMU_S_OK, r.2)

/-- virtio_iommu_map (lines 1325-1376): NOENT for an unknown address
space; INVAL when the interval [virt_addr, virt_addr + size - 1] compares
equal to (overlaps) a stored key; otherwise insert the mapping and notify
a map event to each notifier registered for an attached device. -/
def map (s : State) (asid virt_addr size phys_addr flags : Nat) :
    State × Int × List Event :=
  let interval : viommu_interval := ⟨virt_addr, reqHigh virt_addr size⟩
  match lookupAs s asid with
  | none => (s, VIRTIO_IOMMU_S_NOENT, [])
  | some a =>
    match lookupMapping a.mappings interval with
    | some _ => (s, VIRTIO_IOMMU_S_INVAL, [])
    | none =>
      let mapping : viommu_mapping :=
        { virt_addr := virt_addr, phys_addr := phys_addr, size := size, flags := flags }
      let s1 := setAs s asid { a with mappings := insertMapping a.mappings interval mapping }
      let ev := s.notifiers.flatMap (fun n => a.device_list.flatMap (fun d =>
        if d == n then [Event.map n virt_addr phys_addr size] else []))
      (s1, VIRTIO_IOMMU_S_OK, ev)

/-- virtio_iommu_remove_mapping (lines 1378-1394): g_tree_remove by
interval, then an unmap notification per notifier per attached device. -/
def remove_mapping (notifiers device_list : List Nat)
    (m : List (viommu_interval × viommu_mapping)) (itv : viommu_interval) :
    List (viommu_interval × viommu_mapping) × List Event :=
  let ev := notifiers.flatMap (fun n => device_list.flatMap (fun d =>
    if d == n then [Event.unmap n itv.low (add64 (sub64 itv.high itv.low) 1)] else []))
  (removeMapping m itv, ev)

/-- The unmap while-loop of virtio_iommu_unmap (lines 1418-1447).  size is
the original request size (the loop keeps comparing against it even after
the interval shrank).  The fuel argument bounds the iteration count; every
reachable iteration removes a stored entry, so mappings.length + 1 fuel is
exhausted only in states where g_tree_remove removes nothing and the C
loop would not terminate - that divergence is flagged with the sentinel
status VIRTIO_IOMMU_S_DEVERR, which the C function itself never returns. -/
def unmapLoop (notifiers device_list : List Nat) :
    Nat → List (viommu_interval × viommu_mapping) → viommu_interval → Nat →
    List (viommu_interval × viommu_mapping) × Int × List Event
  | 0, m, _, _ => (m, VIRTIO_IOMMU_S_DEVERR, [])
  | fuel + 1, m, itv, size =>
    match lookupMapping m itv with
    | none => (m, VIRTIO_IOMMU_S_OK, [])
    | some e =>
      let low := e.2.virt_addr
      let high := reqHigh e.2.virt_addr e.2.size
      let current : viommu_interval := ⟨low, high⟩
      if low = itv.low ∧ e.2.size ≤ size then
        let r := remove_mapping notifiers device_list m current
        let itv1 : viommu_interval := ⟨add64 high 1, itv.high⟩
        if itv1.high ≤ itv1.low then (r.1, VIRTIO_IOMMU_S_OK, r.2)
        else
          let rec1 := unmapLoop notifiers device_list fuel r.1 itv1 size
          (rec1.1, rec1.2.1, r.2 ++ rec1.2.2)
      else if high = itv.high ∧ e.2.size ≤ size then
        let r := remove_mapping notifiers device_list m current
        let itv1 : viommu_interval := ⟨itv.low, sub64 low 1⟩
        if itv1.high ≤ itv1.low then (r.1, VIRTIO_IOMMU_S_OK, r.2)
        else
          let rec1 := unmapLoop notifiers device_list fuel r.1 itv1 size
          (rec1.1, rec1.2.1, r.2 ++ rec1.2.2)
      else if itv.low < low ∧ high < itv.high then
        let r := remove_mapping notifiers device_list m current
        if itv.high ≤ itv.low then (r.1, VIRTIO_IOMMU_S_OK, r.2)
        else
          let rec1 := unmapLoop notifiers device_list fuel r.1 itv size
          (rec1.1, rec1.2.1, r.2 ++ rec1.2.2)
      else (m, VIRTIO_IOMMU_S_INVAL, [])

/-- virtio_iommu_unmap (lines 1396-1459): NOENT for an unknown address
space; otherwise run the removal loop over the interval
[virt_addr, virt_addr + size - 1]; a remaining overlapping mapping that
fits no removal case yields INVAL, with the removals already performed in
the same call left committed. -/
def unmap (s : State) (asid virt_addr size : Nat) : State × Int × List Event :=
  match lookupAs s asid with
  | none => (s, VIRTIO_IOMMU_S_NOENT, [])
  | some a =>
    let itv : viommu_interval := ⟨virt_addr, reqHigh virt_addr size⟩
    let r := unmapLoop s.notifiers a.device_list (a.mappings.length + 1)
      a.mappings itv size
    (setAs s asid { a with mappings := r.1 }, r.2.1, r.2.2)

end VB

namespace VB

/-- The tail of virtio_iommu_translate (variant B, lines 1803-1818) once
the device's address space is resolved: point lookup of
[addr, addr + 1] in the mappings tree, permission check against the
mapping flags, and translated_addr = addr - virt_addr + phys_addr; the
entry starts out with perm = flag and translated_addr = addr. -/
def translateFound (m : List (viommu_interval × viommu_mapping))
    (addr flag : Nat) : IOMMUTLBEntry :=
  let entry : IOMMUTLBEntry :=
    { iova := addr, translated_addr := addr, addr_mask := pageMask, perm := flag }
  match lookupMapping m ⟨addr, add64 addr 1⟩ with
  | none => entry
  | some e =>
    if (flag &&& IOMMU_RO ≠ 0 ∧ e.2.flags &&& VIRTIO_IOMMU_MAP_F_READ = 0) ∨
       (flag &&& IOMMU_WO ≠ 0 ∧ e.2.flags &&& VIRTIO_IOMMU_MAP_F_WRITE = 0) then
      { entry with perm := IOMMU_NONE }
    else
      { entry with translated_addr := add64 (sub64 addr e.2.virt_addr) e.2.phys_addr }

/-- virtio_iommu_translate (variant B, lines 1765-1823): an unknown
device or an unattached device returns the initial entry unchanged
(perm = flag, untranslated); otherwise look up in the attached address
space's mappings. -/
def translate (s : State) (sid addr flag : Nat) : IOMMUTLBEntry :=
  let entry : IOMMUTLBEntry :=
    { iova := addr, translated_addr := addr, addr_mask := pageMask, perm := flag }
  match lookupDev s sid with
  | none => entry
  | some dev =>
    match dev.as with
    | none => entry
    | some asid =>
      match lookupAs s asid with
      | none => entry
      | some a => translateFound a.mappings addr flag

/- ---------- PROBE (variant B only) ---------- -/

def VIOMMU_PROBE_SIZE : Nat := 512

/-- sizeof(struct virtio_iommu_probe_resv_mem).  The struct comes from the
external linux/virtio_iommu.h header (not under src/): subtype plus
padding, flags, addr, size - 24 bytes.  Only its positivity matters to the
claims about probe. -/
def sizeof_probe_resv_mem : Nat := 24

/-- virtio_iommu_fill_resv_mem_prop folded over the reserved-region tree
by g_tree_foreach (lines 1461-1492): each record first checks
filled >= VIOMMU_PROBE_SIZE (setting the error flag and stopping the
traversal), then accounts a property header (4 bytes) plus the record.
Returns the final filled counter and the error flag. -/
def fill_resv_mem : List resv_mem → Nat → Nat × Bool
  | [], filled => (filled, false)
  | _ :: rest, filled =>
    if VIOMMU_PROBE_SIZE ≤ filled then (filled, true)
    else fill_resv_mem rest (filled + (sizeof_probe_resv_mem + 4))

/-- virtio_iommu_fill_property (lines 1508-1545) on the buffer state
(filled counter, error flag): a property whose 4-byte header would not fit
sets the error flag and fails with -ENOSPC; the none property fills 4
bytes; the reserved-region property folds the device's region tree. -/
def fill_property (dev : viommu_dev) (ptype : Nat) (bs : Nat × Bool) :
    (Nat × Bool) × Int :=
  if VIOMMU_PROBE_SIZE ≤ bs.1 + 4 then ((bs.1, true), -ENOSPC)
  else if ptype == 0 then ((bs.1 + 4, bs.2), 0)
  else if ptype == 1 then
    let r := fill_resv_mem dev.reserved_regions bs.1
    if r.2 then ((r.1, true), -ENOSPC) else ((r.1, bs.2), 0)
  else (bs, -ENOENT)

/-- virtio_iommu_probe (lines 1547-1577): -EINVAL for an unknown device;
otherwise fill the supported properties (the ctz32 loop over
SUPPORTED_PROBE_PROPERTIES = T_NONE | T_RESV_MEM reduces to a single
RESV_MEM pass), unconditionally append the terminating none property, and
return VIRTIO_IOMMU_S_OK regardless of any fill failure.  The result also
exposes the final buffer state (filled counter, error flag). -/
def probe (s : State) (devid : Nat) : Int × Nat × Bool :=
  match lookupDev s devid with
  | none => (-EINVAL, 0, false)
  | some dev =>
    let r1 := fill_property dev 1 (0, false)
    let r2 := fill_property dev 0 r1.1
    (VIRTIO_IOMMU_S_OK, r2.1.1, r2.1.2)

/- ---------- command dispatch ---------- -/

/-- Requests handled by virtio_iommu_handle_command (variant B). -/
inductive Command where
  | attach (asid devid reserved : Nat)
  | detach (devid reserved : Nat)
  | map (asid virt_addr size phys_addr flags : Nat)
  | unmap (asid virt_addr size : Nat)
  | probe (devid : Nat)
deriving DecidableEq, Repr

/-- One command dispatched under the mutex: next state, tail status and
emitted notifier events. -/
def step (s : State) : Command → State × Int × List Event
  | .attach asid devid reserved => attach s asid devid reserved
  | .detach devid reserved => detach s devid reserved
  | .map asid virt_addr size phys_addr flags => map s asid virt_addr size phys_addr flags
  | .unmap asid virt_addr size => unmap s asid virt_addr size
  | .probe devid => (s, (probe s devid).1, [])

def run (s : State) : List Command → State
  | [] => s
  | c :: cs => run (step s c).1 cs

/-- run, also collecting each command's tail status. -/
def runStat (s : State) : List Command → State × List Int
  | [] => (s, [])
  | c :: cs =>
    let r := step s c
    let rest := runStat r.1 cs
    (rest.1, r.2.1 :: rest.2)

end VB

namespace VA

/-- Mapping value stored in the interval tree (variant A viommu_mapping,
lines 341-344): physical base and permission flags; the virtual bounds
live in the key. -/
structure viommu_mapping where
  phys_addr : Nat
  flags : Nat
deriving DecidableEq, Repr

/-- Protection domain (variant A viommu_domain).  refs models the GTree
reference count of the mappings tree. -/
structure viommu_domain where
  id : Nat
  mappings : List (viommu_interval × viommu_mapping)
  refs : Nat
  endpoint_list : List Nat
deriving DecidableEq, Repr

/-- Endpoint (variant A viommu_endpoint); domain is the id of the attached
domain, if any. -/
structure viommu_endpoint where
  id : Nat
  domain : Option Nat
deriving DecidableEq, Repr

/-- Engine state of variant A: the s->domains and s->endpoints GTrees as
association lists, plus whether VIRTIO_IOMMU_F_BYPASS was acked by the
guest (read by translate). -/
structure State where
  domains : List (Nat × viommu_domain)
  endpoints : List (Nat × viommu_endpoint)
  acked_bypass : Bool
deriving DecidableEq, Repr

def emptyState : State := { domains := [], endpoints := [], acked_bypass := false }

/-- interval_cmp of variant A (lines 351-363): two intervals compare equal
iff neither high < the other's low, i.e. iff the inclusive ranges
intersect. -/
def interval_cmp (a b : viommu_interval) : Int :=
  if a.high < b.low then -1 else if b.high < a.low then 1 else 0

def lookupMapping (m : List (viommu_interval × viommu_mapping))
    (q : viommu_interval) : Option (viommu_interval × viommu_mapping) :=
  m.find? (fun e => interval_cmp q e.1 == 0)

def insertMapping (m : List (viommu_interval × viommu_mapping))
    (i : viommu_interval) (mp : viommu_mapping) :
    List (viommu_interval × viommu_mapping) :=
  match m with
  | [] => [(i, mp)]
  | e :: rest =>
    if interval_cmp i e.1 == -1 then (i, mp) :: e :: rest
    else e :: insertMapping rest i mp

def removeMapping (m : List (viommu_interval × viommu_mapping))
    (q : viommu_interval) : List (viommu_interval × viommu_mapping) :=
  match m.find? (fun e => interval_cmp q e.1 == 0) with
  | some e => m.erase e
  | none => m

def lookupDomain (s : State) (did : Nat) : Option viommu_domain :=
  (s.domains.find? (fun p => p.1 == did)).map (·.2)

def lookupEp (s : State) (epid : Nat) : Option viommu_endpoint :=
  (s.endpoints.find? (fun p => p.1 == epid)).map (·.2)

def setDomain (s : State) (did : Nat) (d : viommu_domain) : State :=
  { s with domains := VB.updAssoc s.domains did (fun _ => d) }

def setEpDomain (s : State) (epid : Nat) (v : Option Nat) : State :=
  { s with endpoints := VB.updAssoc s.endpoints epid (fun e => { e with domain := v }) }

/-- virtio_iommu_get_endpoint (lines 372-386). -/
def get_endpoint (s : State) (epid : Nat) : State × viommu_endpoint :=
  match lookupEp s epid with
  | some e => (s, e)
  | none =>
    let e : viommu_endpoint := { id := epid, domain := none }
    ({ s with endpoints := (epid, e) :: s.endpoints }, e)

/-- virtio_iommu_get_domain (lines 400-418). -/
def get_domain (s : State) (did : Nat) : State × viommu_domain :=
  match lookupDomain s did with
  | some d => (s, d)
  | none =>
    let d : viommu_domain := { id := did, mappings := [], refs := 1, endpoint_list := [] }
    ({ s with domains := (did, d) :: s.domains }, d)

/-- virtio_iommu_detach_endpoint_from_domain (lines 365-370): remove the
endpoint from its domain's list, drop one reference on the domain's
mappings tree, clear the attachment. -/
def detach_endpoint_from_domain (s : State) (epid : Nat) : State :=
  match lookupEp s epid with
  | none => s
  | some e =>
    match e.domain with
    | none => s
    | some old =>
      match lookupDomain s old with
      | none => setEpDomain s epid none
      | some od =>
        setEpDomain (setDomain s old
          { od with endpoint_list := od.endpoint_list.erase epid, refs := od.refs - 1 })
          epid none

/-- virtio_iommu_attach (variant A, lines 471-497): lazily create the
endpoint, implicitly detach it when already attached, lazily create the
target domain, insert the endpoint at the head of the domain's list,
record the attachment and take a reference. -/
def attach (s : State) (did epid : Nat) : State × Int :=
  let r1 := get_endpoint s epid
  let s2 :=
    match r1.2.domain with
    | some _ => detach_endpoint_from_domain r1.1 epid
    | none => r1.1
  let r3 := get_domain s2 did
  let d := r3.2
  let s4 := setDomain r3.1 did
    { d with endpoint_list := epid :: d.endpoint_list, refs := d.refs + 1 }
  (setEpDomain s4 epid (some did), VIRTIO_IOMMU_S_OK)

/-- virtio_iommu_detach (variant A, lines 499-519). -/
def detach (s : State) (epid : Nat) : State × Int :=
  match lookupEp s epid with
  | none => (s, VIRTIO_IOMMU_S_NOENT)
  | some e =>
    match e.domain with
    | none => (s, VIRTIO_IOMMU_S_INVAL)
    | some _ => (detach_endpoint_from_domain s epid, VIRTIO_IOMMU_S_OK)

/-- virtio_iommu_map (variant A, lines 521-558): NOENT for an unknown
domain; INVAL when [virt_start, virt_end] compares equal to (intersects) a
stored key; otherwise insert. -/
def map (s : State) (did virt_start virt_end phys_start flags : Nat) : State × Int :=
  let interval : viommu_interval := ⟨virt_start, virt_end⟩
  match lookupDomain s did with
  | none => (s, VIRTIO_IOMMU_S_NOENT)
  | some d =>
    match lookupMapping d.mappings interval with
    | some _ => (s, VIRTIO_IOMMU_S_INVAL)
    | none =>
      let mp : viommu_mapping := { phys_addr := phys_start, flags := flags }
      (setDomain s did { d with mappings := insertMapping d.mappings interval mp },
       VIRTIO_IOMMU_S_OK)

/-- The unmap while-loop of variant A (lines 581-598): whenever an
overlapping entry is found, either the query range fully covers it - then
it is removed and the loop continues - or the call fails with
VIRTIO_IOMMU_S_RANGE, leaving the remaining entries in place.  Fuel as in
VB.unmapLoop: the sentinel VIRTIO_IOMMU_S_DEVERR marks the diverging
degenerate case (g_tree_remove removing nothing), which the C function
never returns. -/
def unmapLoop : Nat → List (viommu_interval × viommu_mapping) → viommu_interval →
    List (viommu_interval × viommu_mapping) × Int
  | 0, m, _ => (m, VIRTIO_IOMMU_S_DEVERR)
  | fuel + 1, m, itv =>
    match lookupMapping m itv with
    | none => (m, VIRTIO_IOMMU_S_OK)
    | some e =>
      if itv.low ≤ e.1.low ∧ e.1.high ≤ itv.high then
        unmapLoop fuel (removeMapping m e.1) itv
      else (m, VIRTIO_IOMMU_S_RANGE)

/-- virtio_iommu_unmap (variant A, lines 560-600). -/
def unmap (s : State) (did virt_start virt_end : Nat) : State × Int :=
  match lookupDomain s did with
  | none => (s, VIRTIO_IOMMU_S_NOENT)
  | some d =>
    let r := unmapLoop (d.mappings.length + 1) d.mappings ⟨virt_start, virt_end⟩
    (setDomain s did { d with mappings := r.1 }, r.2)

/-- virtio_iommu_translate (variant A, lines 692-772): the entry starts
with perm = IOMMU_NONE; an unknown or unattached endpoint passes through
untranslated only when bypass was acked; a missing covering mapping or a
permission mismatch returns the zero-permission entry; otherwise
translated_addr = addr - mapping_key->low + phys_addr and perm = flag. -/
def translate (s : State) (sid addr flag : Nat) : IOMMUTLBEntry :=
  let entry : IOMMUTLBEntry :=
    { iova := addr, translated_addr := addr, addr_mask := pageMask, perm := IOMMU_NONE }
  let bypass_allowed := s.acked_bypass
  match lookupEp s sid with
  | none => if bypass_allowed then { entry with perm := flag } else entry
  | some ep =>
    match ep.domain with
    | none => if bypass_allowed then { entry with perm := flag } else entry
    | some did =>
      match lookupDomain s did with
      | none => entry
      | some d =>
        match lookupMapping d.mappings ⟨addr, add64 addr 1⟩ with
        | none => entry
        | some e =>
          if (flag &&& IOMMU_RO ≠ 0 ∧ e.2.flags &&& VIRTIO_IOMMU_MAP_F_READ = 0) ∨
             (flag &&& IOMMU_WO ≠ 0 ∧ e.2.flags &&& VIRTIO_IOMMU_MAP_F_WRITE = 0) then
            entry
          else
            { entry with
              translated_addr := add64 (sub64 addr e.1.low) e.2.phys_addr,
              perm := flag }

/-- Requests handled by virtio_iommu_handle_command (variant A). -/
inductive Command where
  | attach (did epid : Nat)
  | detach (did epid : Nat)
  | map (did virt_start virt_end phys_start flags : Nat)
  | unmap (did virt_start virt_end : Nat)
deriving DecidableEq, Repr

def step (s : State) : Command → State × Int
  | .attach did epid => attach s did epid
  | .detach _ epid => detach s epid
  | .map did vs ve ps fl => map s did vs ve ps fl
  | .unmap did vs ve => unmap s did vs ve

def run (s : State) : List Command → State
  | [] => s
  | c :: cs => run (step s c).1 cs

def runStat (s : State) : List Command → State × List Int
  | [] => (s, [])
  | c :: cs =>
    let r := step s c
    let rest := runStat r.1 cs
    (rest.1, r.2 :: rest.2)

end VA

namespace VB

/-- The interval-tree well-formedness the code maintains: stored keys are
pairwise comparator-disjoint. -/
def MappingsDisjoint (m : List (viommu_interval × viommu_mapping)) : Prop :=
  List.Pairwise (fun a b => interval_cmp a.1 b.1 ≠ 0) m

/-- Every address space of the state has a comparator-disjoint mappings
tree. -/
def InvState (s : State) : Prop :=
  ∀ p ∈ s.address_spaces, MappingsDisjoint p.2.mappings

end VB

namespace VA

def MappingsDisjoint (m : List (viommu_interval × viommu_mapping)) : Prop :=
  List.Pairwise (fun a b => interval_cmp a.1 b.1 ≠ 0) m

end VA

/- ---------- generic helper lemmas ---------- -/

theorem reqHigh_eq {virt size : Nat} (h1 : 1 ≤ size) (h2 : virt + size ≤ U64) :
    reqHigh virt size = virt + size - 1 := by
  unfold reqHigh U64 at *
  have : virt + size + (2 ^ 64 - 1) = (virt + size - 1) + 2 ^ 64 := by omega
  rw [this, Nat.add_mod_right, Nat.mod_eq_of_lt (by omega)]

theorem sub64_eq {a b : Nat} (h1 : b ≤ a) (h2 : a < U64) :
    sub64 a b = a - b := by
  unfold sub64 U64 at *
  rw [Nat.mod_eq_of_lt (show b < 2 ^ 64 by omega)]
  have : a + (2 ^ 64 - b) = (a - b) + 2 ^ 64 := by omega
  rw [this, Nat.add_mod_right, Nat.mod_eq_of_lt (by omega)]

theorem add64_eq {a b : Nat} (h : a + b < U64) : add64 a b = a + b := by
  unfold add64 U64 at *
  exact Nat.mod_eq_of_lt h

theorem find?_isSome_iff {α : Type} (p : α → Bool) (l : List α) :
    (l.find? p).isSome ↔ ∃ x ∈ l, p x = true := by
  induction l with
  | nil => simp [List.find?]
  | cons a t ih =>
    by_cases h : p a
    · simp [List.find?, h]
    · simp only [List.find?, h, Bool.false_eq_true, if_false, ih, List.mem_cons]
      constructor
      · rintro ⟨x, hx, hpx⟩; exact ⟨x, Or.inr hx, hpx⟩
      · rintro ⟨x, hx | hx, hpx⟩
        · simp [hx] at hpx; simp [hpx] at h
        · exact ⟨x, hx, hpx⟩

theorem find?_eq_of_unique {α : Type} (p : α → Bool) (l : List α) (x : α)
    (hx : x ∈ l) (hpx : p x = true) (huniq : ∀ y ∈ l, p y = true → y = x) :
    l.find? p = some x := by
  induction l with
  | nil => cases hx
  | cons a t ih =>
    by_cases h : p a
    · have ha : a = x := huniq a (List.mem_cons_self a t) h
      rw [List.find?_cons_of_pos _ h, ha]
    · have hxt : x ∈ t := by
        rcases List.mem_cons.mp hx with rfl | hxt
        · exact absurd hpx h
        · exact hxt
      rw [List.find?_cons_of_neg _ h]
      exact ih hxt (fun y hy => huniq y (List.mem_cons_of_mem a hy))

theorem find?_updAssoc_self {α : Type} (l : List (Nat × α)) (k : Nat) (f : α → α) :
    (VB.updAssoc l k f).find? (fun p => p.1 == k) =
      (l.find? (fun p => p.1 == k)).map (fun p => (p.1, f p.2)) := by
  induction l with
  | nil => simp [VB.updAssoc]
  | cons a t ih =>
    by_cases h : a.1 = k
    · have e1 : VB.updAssoc (a :: t) k f = (a.1, f a.2) :: t := by
        simp [VB.updAssoc, h]
      rw [e1, @List.find?_cons_of_pos _ (fun p => p.1 == k) (a.1, f a.2) t
          (by simpa using h),
        @List.find?_cons_of_pos _ (fun p => p.1 == k) a t (by simpa using h)]
      rfl
    · have e1 : VB.updAssoc (a :: t) k f = a :: VB.updAssoc t k f := by
        simp [VB.updAssoc, h]
      rw [e1, @List.find?_cons_of_neg _ (fun p => p.1 == k) a _ (by simpa using h),
        @List.find?_cons_of_neg _ (fun p => p.1 == k) a t (by simpa using h)]
      exact ih

theorem find?_updAssoc_ne {α : Type} (l : List (Nat × α)) (k k2 : Nat) (f : α → α)
    (h : k2 ≠ k) :
    (VB.updAssoc l k f).find? (fun p => p.1 == k2) = l.find? (fun p => p.1 == k2) := by
  induction l with
  | nil => simp [VB.updAssoc]
  | cons a t ih =>
    by_cases hk : a.1 = k
    · have h2 : ¬ (a.1 = k2) := by rw [hk]; exact fun hh => h hh.symm
      have e1 : VB.updAssoc (a :: t) k f = (a.1, f a.2) :: t := by
        simp [VB.updAssoc, hk]
      rw [e1, @List.find?_cons_of_neg _ (fun p => p.1 == k2) (a.1, f a.2) t
          (by simpa using h2),
        @List.find?_cons_of_neg _ (fun p => p.1 == k2) a t (by simpa using h2)]
    · have e1 : VB.updAssoc (a :: t) k f = a :: VB.updAssoc t k f := by
        simp [VB.updAssoc, hk]
      by_cases h2 : a.1 = k2
      · rw [e1, @List.find?_cons_of_pos _ (fun p => p.1 == k2) a _ (by simpa using h2),
          @List.find?_cons_of_pos _ (fun p => p.1 == k2) a t (by simpa using h2)]
      · rw [e1, @List.find?_cons_of_neg _ (fun p => p.1 == k2) a _ (by simpa using h2),
          @List.find?_cons_of_neg _ (fun p => p.1 == k2) a t (by simpa using h2)]
        exact ih

namespace VB

theorem interval_cmp_eq_zero_iff (a b : viommu_interval) :
    interval_cmp a b = 0 ↔ b.low < a.high ∧ a.low < b.high := by
  unfold interval_cmp
  split_ifs with h1 h2 <;> constructor <;> intro h <;> first | omega | simp_all

theorem interval_cmp_zero_symm {a b : viommu_interval}
    (h : interval_cmp a b = 0) : interval_cmp b a = 0 := by
  rw [interval_cmp_eq_zero_iff] at *
  exact ⟨h.2, h.1⟩

theorem mem_insertMapping {m : List (viommu_interval × viommu_mapping)}
    {i : viommu_interval} {mp : viommu_mapping}
    {x : viommu_interval × viommu_mapping} :
    x ∈ insertMapping m i mp ↔ x = (i, mp) ∨ x ∈ m := by
  induction m with
  | nil => simp [insertMapping]
  | cons e rest ih =>
    by_cases h : (interval_cmp i e.1 == -1) = true
    · have e1 : insertMapping (e :: rest) i mp = (i, mp) :: e :: rest := by
        simp [insertMapping, h]
      rw [e1]; simp [List.mem_cons]
    · have e1 : insertMapping (e :: rest) i mp = e :: insertMapping rest i mp := by
        simp [insertMapping, h]
      rw [e1]; simp only [List.mem_cons, ih]; tauto

theorem lookupMapping_eq_none_iff {m : List (viommu_interval × viommu_mapping)}
    {q : viommu_interval} :
    lookupMapping m q = none ↔ ∀ e ∈ m, interval_cmp q e.1 ≠ 0 := by
  unfold lookupMapping
  rw [List.find?_eq_none]
  constructor
  · intro h e he; simpa using h e he
  · intro h e he; simpa using h e he

theorem disjoint_insert {m : List (viommu_interval × viommu_mapping)}
    {i : viommu_interval} {mp : viommu_mapping}
    (hd : MappingsDisjoint m) (hn : lookupMapping m i = none) :
    MappingsDisjoint (insertMapping m i mp) := by
  have hsep : ∀ e ∈ m, interval_cmp i e.1 ≠ 0 := lookupMapping_eq_none_iff.mp hn
  clear hn
  induction m with
  | nil => simp [insertMapping, MappingsDisjoint]
  | cons e rest ih =>
    have hde : MappingsDisjoint rest := (List.pairwise_cons.mp hd).2
    have her : ∀ y ∈ rest, interval_cmp e.1 y.1 ≠ 0 := (List.pairwise_cons.mp hd).1
    by_cases h : (interval_cmp i e.1 == -1) = true
    · have e1 : insertMapping (e :: rest) i mp = (i, mp) :: e :: rest := by
        simp [insertMapping, h]
      rw [e1]
      refine List.pairwise_cons.mpr ⟨?_, hd⟩
      intro y hy
      exact hsep y hy
    · have e1 : insertMapping (e :: rest) i mp = e :: insertMapping rest i mp := by
        simp [insertMapping, h]
      rw [e1]
      refine List.pairwise_cons.mpr
        ⟨?_, ih hde (fun y hy => hsep y (List.mem_cons_of_mem e hy))⟩
      intro y hy
      rcases mem_insertMapping.mp hy with rfl | hy2
      · intro hc
        exact hsep e (List.mem_cons_self e rest) (interval_cmp_zero_symm hc)
      · exact her y hy2

theorem disjoint_removeMapping {m : List (viommu_interval × viommu_mapping)}
    (q : viommu_interval) (hd : MappingsDisjoint m) :
    MappingsDisjoint (removeMapping m q) := by
  unfold removeMapping
  cases m.find? (fun e => interval_cmp q e.1 == 0) with
  | none => exact hd
  | some e => exact List.Pairwise.sublist (List.erase_sublist e m) hd

theorem disjoint_unmapLoop (notifiers device_list : List Nat)
    (fuel : Nat) (m : List (viommu_interval × viommu_mapping))
    (itv : viommu_interval) (size : Nat) (hd : MappingsDisjoint m) :
    MappingsDisjoint (unmapLoop notifiers device_list fuel m itv size).1 := by
  induction fuel generalizing m itv with
  | zero => exact hd
  | succ fuel ih =>
    unfold VB.unmapLoop
    cases hm : lookupMapping m itv with
    | none => exact hd
    | some e =>
      simp only
      have hr : MappingsDisjoint (remove_mapping notifiers device_list m
          ⟨e.2.virt_addr, reqHigh e.2.virt_addr e.2.size⟩).1 :=
        disjoint_removeMapping _ hd
      split_ifs <;> first | exact hd | exact hr | exact ih _ _ hr

end VB

namespace VB

theorem lookupAs_mem (s : State) (k : Nat) (a : viommu_as)
    (h : lookupAs s k = some a) : (k, a) ∈ s.address_spaces := by
  unfold lookupAs at h
  cases hf : s.address_spaces.find? (fun p => p.1 == k) with
  | none => rw [hf] at h; cases h
  | some p =>
    rw [hf] at h
    have hp := List.find?_some hf
    have hmem := List.mem_of_find?_eq_some hf
    have h1 : p.1 = k := by simpa using hp
    have h2 : p.2 = a := by simpa using h
    have : p = (k, a) := by
      cases p; simp_all
    rwa [this] at hmem

theorem invState_lookupAs (s : State) (k : Nat) (a : viommu_as)
    (h : InvState s) (hl : lookupAs s k = some a) : MappingsDisjoint a.mappings :=
  h (k, a) (lookupAs_mem s k a hl)

theorem mem_updAssoc {α : Type} {l : List (Nat × α)} {k : Nat} {f : α → α}
    {x : Nat × α} (h : x ∈ updAssoc l k f) :
    x ∈ l ∨ ∃ p, p ∈ l ∧ x = (p.1, f p.2) := by
  induction l with
  | nil => cases h
  | cons a t ih =>
    by_cases hk : (a.1 == k) = true
    · have e1 : updAssoc (a :: t) k f = (a.1, f a.2) :: t := by
        simp [updAssoc, hk]
      rw [e1] at h
      rcases List.mem_cons.mp h with rfl | h2
      · exact Or.inr ⟨a, List.mem_cons_self a t, rfl⟩
      · exact Or.inl (List.mem_cons_of_mem a h2)
    · have e1 : updAssoc (a :: t) k f = a :: updAssoc t k f := by
        simp [updAssoc] at *
        intro hc; exact absurd hc hk
      rw [e1] at h
      rcases List.mem_cons.mp h with rfl | h2
      · exact Or.inl (List.mem_cons_self x t)
      · rcases ih h2 with h3 | ⟨p, hp, rfl⟩
        · exact Or.inl (List.mem_cons_of_mem a h3)
        · exact Or.inr ⟨p, List.mem_cons_of_mem a hp, rfl⟩

theorem invState_setAs (s : State) (k : Nat) (a : viommu_as)
    (h : InvState s) (ha : MappingsDisjoint a.mappings) : InvState (setAs s k a) := by
  intro p hp
  rcases mem_updAssoc hp with hp2 | ⟨q, hq, rfl⟩
  · exact h p hp2
  · exact ha

theorem invState_setDevAs (s : State) (d : Nat) (v : Option Nat)
    (h : InvState s) : InvState (setDevAs s d v) := h

theorem invState_get_dev (s : State) (d : Nat) (h : InvState s) :
    InvState (get_dev s d).1 := by
  unfold get_dev
  cases lookupDev s d <;> exact h

theorem invState_get_as (s : State) (k : Nat) (h : InvState s) :
    InvState (get_as s k).1 ∧ MappingsDisjoint (get_as s k).2.mappings := by
  unfold get_as
  cases hm : lookupAs s k with
  | some a => exact ⟨h, invState_lookupAs s k a h hm⟩
  | none =>
    refine ⟨?_, List.Pairwise.nil⟩
    intro p hp
    rcases List.mem_cons.mp hp with rfl | hp2
    · exact List.Pairwise.nil
    · exact h p hp2

theorem invState_detach_dev (s : State) (d : Nat) (h : InvState s) :
    InvState (detach_dev_from_as s d).1 := by
  unfold detach_dev_from_as
  cases hd : lookupDev s d with
  | none => exact h
  | some dev =>
    dsimp only
    cases dev.as with
    | none => exact h
    | some old =>
      dsimp only
      cases ho : lookupAs s old with
      | none => exact invState_setDevAs _ _ _ h
      | some oa =>
        dsimp only
        exact invState_setDevAs _ _ _
          (invState_setAs _ _ _ h (invState_lookupAs s old oa h ho))

theorem invState_attach (s : State) (asid devid reserved : Nat) (h : InvState s) :
    InvState (attach s asid devid reserved).1 := by
  unfold attach
  by_cases hr : (reserved != 0) = true
  · simp only [hr, if_true]; exact h
  · simp only [hr, if_false]
    have h1 : InvState (get_dev s devid).1 := invState_get_dev s devid h
    have h2 : InvState (match (get_dev s devid).2.as with
        | some _ => detach_dev_from_as (get_dev s devid).1 devid
        | none => ((get_dev s devid).1, ([] : List Event))).1 := by
      cases (get_dev s devid).2.as with
      | some x => exact invState_detach_dev _ devid h1
      | none => exact h1
    have h3 := invState_get_as _ asid h2
    exact invState_setDevAs _ devid (some asid) (invState_setAs _ asid _ h3.1 h3.2)

theorem invState_detach_cmd (s : State) (devid reserved : Nat) (h : InvState s) :
    InvState (detach s devid reserved).1 := by
  unfold detach
  by_cases hr : (reserved != 0) = true
  · simp only [hr, if_true]; exact h
  · simp only [hr, if_false]
    cases lookupDev s devid with
    | none => exact h
    | some dev =>
      dsimp only
      cases dev.as with
      | none => exact h
      | some old => exact invState_detach_dev s devid h

theorem invState_map (s : State) (asid v sz p f : Nat) (h : InvState s) :
    InvState (map s asid v sz p f).1 := by
  unfold map
  dsimp only
  cases ha : lookupAs s asid with
  | none => exact h
  | some a =>
    dsimp only
    cases hm : lookupMapping a.mappings ⟨v, reqHigh v sz⟩ with
    | some e => exact h
    | none =>
      dsimp only
      exact invState_setAs _ asid _ h
        (disjoint_insert (invState_lookupAs s asid a h ha) hm)

theorem invState_unmap (s : State) (asid v sz : Nat) (h : InvState s) :
    InvState (unmap s asid v sz).1 := by
  unfold unmap
  cases ha : lookupAs s asid with
  | none => exact h
  | some a =>
    dsimp only
    exact invState_setAs _ asid _ h
      (disjoint_unmapLoop s.notifiers a.device_list (a.mappings.length + 1)
        a.mappings ⟨v, reqHigh v sz⟩ sz (invState_lookupAs s asid a h ha))

theorem invState_step (s : State) (c : Command) (h : InvState s) :
    InvState (step s c).1 := by
  cases c with
  | attach asid devid reserved => exact invState_attach s asid devid reserved h
  | detach devid reserved => exact invState_detach_cmd s devid reserved h
  | map asid v sz p f => exact invState_map s asid v sz p f h
  | unmap asid v sz => exact invState_unmap s asid v sz h
  | probe devid => exact h

theorem invState_run (s : State) (cmds : List Command) (h : InvState s) :
    InvState (run s cmds) := by
  induction cmds generalizing s with
  | nil => exact h
  | cons c cs ih => exact ih _ (invState_step s c h)

theorem invState_empty : InvState emptyState := by
  intro p hp; cases hp

end VB

/-- A concrete variant-B state used to exercise attach: device 7 has a
registered notifier and is attached to domain 1; domain 2 also exists
with one mapping. -/
def exampleAttachState : VB.State :=
  { address_spaces :=
      [(1, { id := 1, mappings := [({ low := 0, high := 15 },
              { virt_addr := 0, phys_addr := 100, size := 16, flags := 3 })],
             refs := 2, device_list := [7] }),
       (2, { id := 2, mappings := [({ low := 4096, high := 8191 },
              { virt_addr := 4096, phys_addr := 20480, size := 4096, flags := 3 })],
             refs := 1, device_list := [] })],
    devices := [(7, { id := 7, as := some 1, reserved_regions := [] })],
    notifiers := [7] }

/-- A concrete variant-B state for probe: device 3 carries 19 reserved
regions, whose serialization (19 * 28 bytes of properties plus the
4-byte none property) exceeds the 512-byte probe buffer. -/
def exampleProbeState : VB.State :=
  { address_spaces := [],
    devices := [(3, { id := 3, as := none,
                      reserved_regions := List.replicate 19 ⟨0, 0, 0, 0⟩ })],
    notifiers := [] }

/- ==================== CLAIMS ==================== -/

/-- C1 (amended): after any sequence of commands on the variant-B engine
(lines 967-2072, the one cited by the claim), the interval map of every
domain contains no two entries whose ranges overlap in more than a single
boundary address: for any two stored entries, one's inclusive high bound
is at most the other's inclusive low bound.  The original claim (no two
ranges intersect at all) fails because interval_cmp (lines 1050-1062)
compares with "<=", treating inclusive ranges that share exactly one
address as disjoint - see the counterexample. -/
theorem C1_mappings_pairwise_boundary_disjoint (cmds : List VB.Command)
    (p : Nat × VB.viommu_as)
    (hp : p ∈ (VB.run VB.emptyState cmds).address_spaces) :
    List.Pairwise (fun a b => a.1.high ≤ b.1.low ∨ b.1.high ≤ a.1.low)
      p.2.mappings := by
  have h := VB.invState_run VB.emptyState cmds VB.invState_empty p hp
  refine h.imp ?_
  intro a b hab
  rw [Ne, VB.interval_cmp_eq_zero_iff] at hab
  omega

/-- Witness for C1: after attach(domain 0, device 1) and a successful
map([0, 15]), the single-entry interval map of domain 0 satisfies the
pairwise-boundary-disjointness property. -/
theorem C1_witness :
    List.Pairwise (fun a b => a.1.high ≤ b.1.low ∨ b.1.high ≤ a.1.low)
      ([(({ low := 0, high := 15 } : viommu_interval),
         ({ virt_addr := 0, phys_addr := 0, size := 16, flags := 3 } :
           VB.viommu_mapping))]) :=
  C1_mappings_pairwise_boundary_disjoint
    [.attach 0 1 0, .map 0 0 16 0 3]
    (0, { id := 0,
          mappings := [({ low := 0, high := 15 },
                        { virt_addr := 0, phys_addr := 0, size := 16, flags := 3 })],
          refs := 2, device_list := [1] })
    (by decide)

/-- Counterexample to C1 as stated: from the empty state, attach(domain 0,
device 1), map(virt 0, size 16) and map(virt 15, size 16) all return
VIRTIO_IOMMU_S_OK, yet afterwards domain 0 stores the two entries
[0, 15] and [15, 30], whose inclusive virtual ranges both contain
address 15 - two mapping entries of the same domain whose virtual ranges
intersect, produced by individually successful MAP commands. -/
theorem C1_counterexample :
    (VB.runStat VB.emptyState
      [.attach 0 1 0, .map 0 0 16 0 3, .map 0 15 16 256 3]).2 =
      [VIRTIO_IOMMU_S_OK, VIRTIO_IOMMU_S_OK, VIRTIO_IOMMU_S_OK] ∧
    VB.lookupAs (VB.run VB.emptyState
      [.attach 0 1 0, .map 0 0 16 0 3, .map 0 15 16 256 3]) 0 =
      some { id := 0,
             mappings := [({ low := 0, high := 15 },
                           { virt_addr := 0, phys_addr := 0, size := 16, flags := 3 }),
                          ({ low := 15, high := 30 },
                           { virt_addr := 15, phys_addr := 256, size := 16, flags := 3 })],
             refs := 2, device_list := [1] } ∧
    ((0 : Nat) ≤ 15 ∧ (15 : Nat) ≤ 15 ∧ (15 : Nat) ≤ 15 ∧ (15 : Nat) ≤ 30) := by
  refine ⟨by decide, by decide, by decide⟩

theorem lookupAs_setAs_self (s : VB.State) (k : Nat) (a a0 : VB.viommu_as)
    (h : VB.lookupAs s k = some a0) :
    VB.lookupAs (VB.setAs s k a) k = some a := by
  unfold VB.lookupAs VB.setAs at *
  rw [find?_updAssoc_self]
  cases hf : s.address_spaces.find? (fun p => p.1 == k) with
  | none => rw [hf] at h; cases h
  | some p => simp

theorem lookupAs_setAs_ne (s : VB.State) (k k2 : Nat) (a : VB.viommu_as)
    (h : k2 ≠ k) :
    VB.lookupAs (VB.setAs s k a) k2 = VB.lookupAs s k2 := by
  unfold VB.lookupAs VB.setAs
  rw [find?_updAssoc_ne]
  exact h

theorem lookupMapping_isSome_iff (m : List (viommu_interval × VB.viommu_mapping))
    (q : viommu_interval) :
    (VB.lookupMapping m q).isSome ↔ ∃ e ∈ m, VB.interval_cmp q e.1 = 0 := by
  unfold VB.lookupMapping
  rw [find?_isSome_iff]
  constructor
  · rintro ⟨x, hx, hpx⟩; exact ⟨x, hx, by simpa using hpx⟩
  · rintro ⟨x, hx, hpx⟩; exact ⟨x, hx, by simpa using hpx⟩

theorem map_eval (s : VB.State) (asid virt size phys flags : Nat)
    (a : VB.viommu_as) (ha : VB.lookupAs s asid = some a) :
    VB.map s asid virt size phys flags =
      match VB.lookupMapping a.mappings ⟨virt, reqHigh virt size⟩ with
      | some _ => (s, VIRTIO_IOMMU_S_INVAL, [])
      | none =>
        (VB.setAs s asid { a with mappings :=
            (VB.insertMapping a.mappings ⟨virt, reqHigh virt size⟩
              ⟨virt, phys, size, flags⟩) },
         VIRTIO_IOMMU_S_OK,
         s.notifiers.flatMap (fun n => a.device_list.flatMap (fun d =>
           if d == n then [VB.Event.map n virt phys size] else []))) := by
  unfold VB.map
  rw [ha]

/-- C2 (amended): for a known domain and a sane request (size >= 1, no
64-bit wrap), MAP on the variant-B engine returns VIRTIO_IOMMU_S_INVAL iff
the requested range strictly overlaps a stored entry - shares more than a
single boundary address: e.low < virt + size - 1 and virt < e.high for
some entry e.  Consequently map(r); map(r) makes the second call fail iff
size >= 2: for a size-1 range the "<="-based comparator (lines 1050-1062)
never matches the stored copy and the second call also succeeds (see the
counterexample). -/
theorem C2_map_inval_iff_strict_overlap (s : VB.State)
    (asid virt size phys flags : Nat) (a : VB.viommu_as)
    (ha : VB.lookupAs s asid = some a)
    (hsz : 1 ≤ size) (hno : virt + size ≤ U64) :
    ((VB.map s asid virt size phys flags).2.1 = VIRTIO_IOMMU_S_INVAL ↔
      ∃ e ∈ a.mappings, e.1.low < virt + size - 1 ∧ virt < e.1.high) ∧
    ((VB.map s asid virt size phys flags).2.1 = VIRTIO_IOMMU_S_OK →
      ((VB.map (VB.map s asid virt size phys flags).1 asid virt size phys
          flags).2.1 = VIRTIO_IOMMU_S_INVAL ↔ 2 ≤ size)) := by
  have hq : reqHigh virt size = virt + size - 1 := reqHigh_eq hsz hno
  have hcmp : ∀ e : viommu_interval × VB.viommu_mapping,
      VB.interval_cmp ⟨virt, reqHigh virt size⟩ e.1 = 0 ↔
        e.1.low < virt + size - 1 ∧ virt < e.1.high := by
    intro e
    rw [VB.interval_cmp_eq_zero_iff]
    dsimp only
    rw [hq]
  constructor
  · rw [map_eval s asid virt size phys flags a ha]
    cases hm : VB.lookupMapping a.mappings ⟨virt, reqHigh virt size⟩ with
    | some e =>
      dsimp only
      constructor
      · intro _
        have hsome : (VB.lookupMapping a.mappings ⟨virt, reqHigh virt size⟩).isSome := by
          rw [hm]; rfl
        rcases (lookupMapping_isSome_iff _ _).mp hsome with ⟨x, hx, hpx⟩
        exact ⟨x, hx, (hcmp x).mp hpx⟩
      · intro _; rfl
    | none =>
      dsimp only
      constructor
      · intro hc; exact absurd hc (by decide)
      · rintro ⟨e, he, hov⟩
        have := VB.lookupMapping_eq_none_iff.mp hm e he
        exact absurd ((hcmp e).mpr hov) this
  · intro hok
    have hm : VB.lookupMapping a.mappings ⟨virt, reqHigh virt size⟩ = none := by
      cases hm0 : VB.lookupMapping a.mappings ⟨virt, reqHigh virt size⟩ with
      | none => rfl
      | some e =>
        exfalso
        have hbad : (VB.map s asid virt size phys flags).2.1 =
            VIRTIO_IOMMU_S_INVAL := by
          rw [map_eval s asid virt size phys flags a ha, hm0]
        rw [hok] at hbad
        exact absurd hbad (by decide)
    have hstate : (VB.map s asid virt size phys flags).1 =
        VB.setAs s asid { a with mappings :=
          (VB.insertMapping a.mappings ⟨virt, reqHigh virt size⟩
            ⟨virt, phys, size, flags⟩) } := by
      rw [map_eval s asid virt size phys flags a ha, hm]
    have ha2 : VB.lookupAs (VB.map s asid virt size phys flags).1 asid =
        some { a with mappings :=
          (VB.insertMapping a.mappings ⟨virt, reqHigh virt size⟩
            ⟨virt, phys, size, flags⟩) } := by
      rw [hstate]
      exact lookupAs_setAs_self s asid _ a ha
    rw [map_eval _ asid virt size phys flags _ ha2]
    cases hm2 : VB.lookupMapping (VB.insertMapping a.mappings
        ⟨virt, reqHigh virt size⟩ ⟨virt, phys, size, flags⟩)
        ⟨virt, reqHigh virt size⟩ with
    | some e =>
      dsimp only
      constructor
      · intro _
        have hsome : (VB.lookupMapping (VB.insertMapping a.mappings
            ⟨virt, reqHigh virt size⟩ ⟨virt, phys, size, flags⟩)
            ⟨virt, reqHigh virt size⟩).isSome := by rw [hm2]; rfl
        rcases (lookupMapping_isSome_iff _ _).mp hsome with ⟨x, hx, hpx⟩
        rcases VB.mem_insertMapping.mp hx with rfl | hxm
        · have h0 := (VB.interval_cmp_eq_zero_iff _ _).mp hpx
          dsimp only at h0
          rw [hq] at h0
          omega
        · exact absurd hpx (by simpa using VB.lookupMapping_eq_none_iff.mp hm x hxm)
      · intro _; rfl
    | none =>
      dsimp only
      constructor
      · intro hc; exact absurd hc (by decide)
      · intro h2
        have hself : VB.interval_cmp ⟨virt, reqHigh virt size⟩
            ⟨virt, reqHigh virt size⟩ = 0 := by
          rw [VB.interval_cmp_eq_zero_iff]
          dsimp only
          rw [hq]
          omega
        have hmem := VB.lookupMapping_eq_none_iff.mp hm2
          (⟨virt, reqHigh virt size⟩, ⟨virt, phys, size, flags⟩)
          (VB.mem_insertMapping.mpr (Or.inl rfl))
        exact absurd hself hmem

/-- Witness for C2: in the state after attach(domain 0, device 1) the
domain exists with no mappings; instantiating the theorem at
map(domain 0, virt 4096, size 4096): the first call does not return
INVAL (no entry overlaps) and, once it succeeded, repeating the same
request fails with INVAL (size 4096 >= 2). -/
theorem C2_witness :
    (((VB.map (VB.run VB.emptyState [.attach 0 1 0]) 0 4096 4096 20480 3).2.1 =
        VIRTIO_IOMMU_S_INVAL ↔
      ∃ e ∈ ({ id := 0, mappings := [], refs := 2,
               device_list := [1] } : VB.viommu_as).mappings,
        e.1.low < 4096 + 4096 - 1 ∧ 4096 < e.1.high) ∧
    ((VB.map (VB.run VB.emptyState [.attach 0 1 0]) 0 4096 4096 20480 3).2.1 =
        VIRTIO_IOMMU_S_OK →
      ((VB.map (VB.map (VB.run VB.emptyState [.attach 0 1 0])
          0 4096 4096 20480 3).1 0 4096 4096 20480 3).2.1 =
          VIRTIO_IOMMU_S_INVAL ↔ 2 ≤ 4096))) :=
  C2_map_inval_iff_strict_overlap (VB.run VB.emptyState [.attach 0 1 0])
    0 4096 4096 20480 3
    { id := 0, mappings := [], refs := 2, device_list := [1] }
    (by decide) (by decide) (by decide)

/-- Counterexample to C2 as stated: with domain 0 existing, the size-1
request map(virt 5, size 1) is issued twice; the requested range [5, 5]
intersects the already-stored entry [5, 5], yet both calls return
VIRTIO_IOMMU_S_OK (the second even inserts a duplicate entry) - the
claimed iff and the claimed failure of the second map(r) both fail. -/
theorem C2_counterexample :
    (VB.runStat VB.emptyState [.attach 0 1 0, .map 0 5 1 9 3, .map 0 5 1 9 3]).2 =
      [VIRTIO_IOMMU_S_OK, VIRTIO_IOMMU_S_OK, VIRTIO_IOMMU_S_OK] ∧
    VB.lookupAs (VB.run VB.emptyState
        [.attach 0 1 0, .map 0 5 1 9 3, .map 0 5 1 9 3]) 0 =
      some { id := 0,
             mappings := [({ low := 5, high := 5 },
                           { virt_addr := 5, phys_addr := 9, size := 1, flags := 3 }),
                          ({ low := 5, high := 5 },
                           { virt_addr := 5, phys_addr := 9, size := 1, flags := 3 })],
             refs := 2, device_list := [1] } := by
  refine ⟨by decide, by decide⟩

theorem lookupMapping_eq_of_unique (m : List (viommu_interval × VB.viommu_mapping))
    (q : viommu_interval) (x : viommu_interval × VB.viommu_mapping)
    (hx : x ∈ m) (hq : VB.interval_cmp q x.1 = 0)
    (huniq : ∀ y ∈ m, VB.interval_cmp q y.1 = 0 → y = x) :
    VB.lookupMapping m q = some x := by
  unfold VB.lookupMapping
  exact find?_eq_of_unique _ m x hx (by simpa using hq)
    (fun y hy hpy => huniq y hy (by simpa using hpy))

theorem disjoint_pairwise_ne (m : List (viommu_interval × VB.viommu_mapping))
    (x y : viommu_interval × VB.viommu_mapping)
    (hd : VB.MappingsDisjoint m) (hx : x ∈ m) (hy : y ∈ m) (hne : x ≠ y) :
    VB.interval_cmp x.1 y.1 ≠ 0 := by
  have hsym : Symmetric (fun a b : viommu_interval × VB.viommu_mapping =>
      VB.interval_cmp a.1 b.1 ≠ 0) := by
    intro a b hab hc
    exact hab (VB.interval_cmp_zero_symm hc)
  exact List.Pairwise.forall hsym hd hx hy hne

/-- Any entry whose inclusive range properly covers the point addr
(addr strictly below the stored high bound) is the unique entry the
point query [addr, addr + 1] resolves to, in a comparator-disjoint
tree. -/
theorem lookupMapping_point (m : List (viommu_interval × VB.viommu_mapping))
    (addr : Nat) (x : viommu_interval × VB.viommu_mapping)
    (hd : VB.MappingsDisjoint m) (hx : x ∈ m)
    (hlow : x.1.low ≤ addr) (hhigh : addr < x.1.high) (haddr : addr + 1 < U64) :
    VB.lookupMapping m ⟨addr, add64 addr 1⟩ = some x := by
  have hq1 : add64 addr 1 = addr + 1 := add64_eq haddr
  apply lookupMapping_eq_of_unique
  · exact hx
  · rw [VB.interval_cmp_eq_zero_iff]
    dsimp only
    rw [hq1]
    omega
  · intro y hy hcy
    by_contra hne
    have hyov := (VB.interval_cmp_eq_zero_iff _ _).mp hcy
    dsimp only at hyov
    rw [hq1] at hyov
    have hxy : VB.interval_cmp y.1 x.1 ≠ 0 :=
      disjoint_pairwise_ne m y x hd hy hx hne
    apply hxy
    rw [VB.interval_cmp_eq_zero_iff]
    omega

/-- C3 (amended): on the variant-B engine, for a device attached to a
domain and an address covered by a mapping entry of that domain EXCEPT
its last inclusive address (addr < k.high, where k.high =
virt_addr + size - 1), with the access mode allowed by the entry's flags,
translation returns translated_addr = iova - virt_addr + phys_addr with
the requested permission.  Two amendments forced by the counterexample:
the commands of the claim's example must run as ATTACH then MAP (a MAP
naming a not-yet-created domain fails with NOENT), and the very last
covered address is excluded (the "<="-based comparator makes the point
query [addr, addr+1] miss the entry at addr = virt_addr + size - 1). -/
theorem C3_translate_covered (s : VB.State) (sid asid addr flag : Nat)
    (dev : VB.viommu_dev) (a : VB.viommu_as)
    (k : viommu_interval) (mp : VB.viommu_mapping)
    (hdev : VB.lookupDev s sid = some dev)
    (has : dev.as = some asid)
    (ha : VB.lookupAs s asid = some a)
    (hd : VB.MappingsDisjoint a.mappings)
    (hmem : (k, mp) ∈ a.mappings)
    (hlow : k.low ≤ addr) (hhigh : addr + 1 ≤ k.high)
    (haddr : addr + 1 < U64)
    (hr : flag &&& IOMMU_RO ≠ 0 → mp.flags &&& VIRTIO_IOMMU_MAP_F_READ ≠ 0)
    (hw : flag &&& IOMMU_WO ≠ 0 → mp.flags &&& VIRTIO_IOMMU_MAP_F_WRITE ≠ 0)
    (hva : mp.virt_addr ≤ addr)
    (hbound : addr - mp.virt_addr + mp.phys_addr < U64) :
    (VB.translate s sid addr flag).translated_addr =
      addr - mp.virt_addr + mp.phys_addr ∧
    (VB.translate s sid addr flag).perm = flag := by
  have hfind : VB.lookupMapping a.mappings ⟨addr, add64 addr 1⟩ = some (k, mp) :=
    lookupMapping_point a.mappings addr (k, mp) hd hmem hlow (show addr < k.high by omega) haddr
  have hperm : ¬ ((flag &&& IOMMU_RO ≠ 0 ∧ mp.flags &&& VIRTIO_IOMMU_MAP_F_READ = 0) ∨
      (flag &&& IOMMU_WO ≠ 0 ∧ mp.flags &&& VIRTIO_IOMMU_MAP_F_WRITE = 0)) := by
    rintro (⟨h1, h2⟩ | ⟨h1, h2⟩)
    · exact hr h1 h2
    · exact hw h1 h2
  have htr : VB.translate s sid addr flag =
      { iova := addr,
        translated_addr := add64 (sub64 addr mp.virt_addr) mp.phys_addr,
        addr_mask := pageMask, perm := flag } := by
    unfold VB.translate
    rw [hdev]
    dsimp only
    rw [has]
    dsimp only
    rw [ha]
    dsimp only
    unfold VB.translateFound
    rw [hfind]
    dsimp only
    rw [if_neg hperm]
  rw [htr]
  refine ⟨?_, rfl⟩
  dsimp only
  rw [sub64_eq hva (by omega), add64_eq hbound]

/-- Witness for C3: running attach(domain 1, device 7) then
map(domain 1, virt 0x1000, size 0x1000, phys 0x5000, flags RW) and
translating address 0x1050 for device 7 in READ mode yields
0x1050 - 0x1000 + 0x5000 = 0x5050 with the READ permission granted. -/
theorem C3_witness :
    (VB.translate (VB.run VB.emptyState
        [.attach 1 7 0, .map 1 4096 4096 20480 3]) 7 4176 1).translated_addr =
      4176 - 4096 + 20480 ∧
    (VB.translate (VB.run VB.emptyState
        [.attach 1 7 0, .map 1 4096 4096 20480 3]) 7 4176 1).perm = 1 :=
  C3_translate_covered
    (VB.run VB.emptyState [.attach 1 7 0, .map 1 4096 4096 20480 3])
    7 1 4176 1
    { id := 7, as := some 1, reserved_regions := [] }
    { id := 1,
      mappings := [({ low := 4096, high := 8191 },
                    { virt_addr := 4096, phys_addr := 20480, size := 4096, flags := 3 })],
      refs := 2, device_list := [7] }
    { low := 4096, high := 8191 }
    { virt_addr := 4096, phys_addr := 20480, size := 4096, flags := 3 }
    (by decide) (by decide) (by decide)
    (by simp [VB.MappingsDisjoint])
    (by decide) (by decide) (by decide) (by decide)
    (by decide) (by decide) (by decide) (by decide)

/-- Counterexample to C3 as stated: (a) issuing the claim's commands in
the stated order from the initial state, MAP(domain 1, ...) fails with
NOENT because MAP does not create domains - only ATTACH does - so the
claimed sequence never produces the mapping; (b) even after
ATTACH then MAP, address 0x1fff = 8191 is covered by the entry
(virt 0x1000, size 0x1000, flags RW) and READ is allowed, yet
translation returns 8191 untranslated instead of the claimed
iova - virt_start + phys_start = 0x5fff = 24575: the point query
[addr, addr+1] misses the stored key [0x1000, 0x1fff] under the
"<="-based comparator. -/
theorem C3_counterexample :
    (VB.step VB.emptyState (.map 1 4096 4096 20480 3)).2.1 =
      VIRTIO_IOMMU_S_NOENT ∧
    (VB.translate (VB.run VB.emptyState
        [.attach 1 7 0, .map 1 4096 4096 20480 3]) 7 8191 1).translated_addr =
      8191 ∧
    (8191 : Nat) - 4096 + 20480 = 24575 ∧ (8191 : Nat) ≠ 24575 := by
  refine ⟨by decide, by decide, by decide, by decide⟩

/-- C4 (amended): zero-permission on fault holds in the bypass-capable
translation engine (variant A, lines 692-772): with bypass disabled,
every fault - unknown endpoint, endpoint attached to no domain, no
covering mapping, access mode not permitted - yields perm = IOMMU_NONE.
In the earlier engine (variant B, lines 1765-1823) the entry is
initialised with perm = flag, so only the permission-check fault yields
zero permission; unknown-device, unattached and no-mapping faults return
the requested permission unchanged (see the counterexample). -/
theorem C4_fault_zero_permission :
    (∀ (s : VA.State) (sid addr flag : Nat),
      s.acked_bypass = false →
      (VA.lookupEp s sid = none ∨
       (∃ ep, VA.lookupEp s sid = some ep ∧ ep.domain = none) ∨
       (∃ ep did d, VA.lookupEp s sid = some ep ∧ ep.domain = some did ∧
         VA.lookupDomain s did = some d ∧
         VA.lookupMapping d.mappings ⟨addr, add64 addr 1⟩ = none) ∨
       (∃ ep did d e, VA.lookupEp s sid = some ep ∧ ep.domain = some did ∧
         VA.lookupDomain s did = some d ∧
         VA.lookupMapping d.mappings ⟨addr, add64 addr 1⟩ = some e ∧
         ((flag &&& IOMMU_RO ≠ 0 ∧ e.2.flags &&& VIRTIO_IOMMU_MAP_F_READ = 0) ∨
          (flag &&& IOMMU_WO ≠ 0 ∧ e.2.flags &&& VIRTIO_IOMMU_MAP_F_WRITE = 0)))) →
      (VA.translate s sid addr flag).perm = IOMMU_NONE) ∧
    (∀ (s : VB.State) (sid addr flag : Nat) (dev : VB.viommu_dev) (asid : Nat)
       (a : VB.viommu_as) (e : viommu_interval × VB.viommu_mapping),
      VB.lookupDev s sid = some dev → dev.as = some asid →
      VB.lookupAs s asid = some a →
      VB.lookupMapping a.mappings ⟨addr, add64 addr 1⟩ = some e →
      ((flag &&& IOMMU_RO ≠ 0 ∧ e.2.flags &&& VIRTIO_IOMMU_MAP_F_READ = 0) ∨
       (flag &&& IOMMU_WO ≠ 0 ∧ e.2.flags &&& VIRTIO_IOMMU_MAP_F_WRITE = 0)) →
      (VB.translate s sid addr flag).perm = IOMMU_NONE) := by
  constructor
  · intro s sid addr flag hbyp hfault
    unfold VA.translate
    rw [hbyp]
    rcases hfault with hep | ⟨ep, hep, hdom⟩ | ⟨ep, did, d, hep, hdom, hd, hm⟩ |
      ⟨ep, did, d, e, hep, hdom, hd, hm, hdeny⟩
    · rw [hep]; rfl
    · rw [hep]; dsimp only; rw [hdom]; rfl
    · rw [hep]; dsimp only; rw [hdom]; dsimp only; rw [hd]; dsimp only; rw [hm]
    · rw [hep]; dsimp only; rw [hdom]; dsimp only; rw [hd]; dsimp only; rw [hm]
      dsimp only
      rw [if_pos hdeny]
  · intro s sid addr flag dev asid a e hdev has ha hm hdeny
    unfold VB.translate
    rw [hdev]
    dsimp only
    rw [has]
    dsimp only
    rw [ha]
    dsimp only
    unfold VB.translateFound
    rw [hm]
    dsimp only
    rw [if_pos hdeny]

/-- Witness for C4: (variant A) translating on the empty state with
bypass disabled - an unknown-endpoint fault - yields zero permission;
(variant B) a WRITE access against a READ-only mapping - a
permission fault - yields zero permission. -/
theorem C4_witness :
    (VA.translate VA.emptyState 7 5 1).perm = IOMMU_NONE ∧
    (VB.translate (VB.run VB.emptyState
        [.attach 1 7 0, .map 1 4096 4096 20480 1]) 7 4176 2).perm = IOMMU_NONE :=
  ⟨C4_fault_zero_permission.1 VA.emptyState 7 5 1 (by decide)
      (Or.inl (by decide)),
   C4_fault_zero_permission.2
     (VB.run VB.emptyState [.attach 1 7 0, .map 1 4096 4096 20480 1])
     7 4176 2
     { id := 7, as := some 1, reserved_regions := [] } 1
     { id := 1,
       mappings := [({ low := 4096, high := 8191 },
                     { virt_addr := 4096, phys_addr := 20480, size := 4096, flags := 1 })],
       refs := 2, device_list := [7] }
     ({ low := 4096, high := 8191 },
      { virt_addr := 4096, phys_addr := 20480, size := 4096, flags := 1 })
     (by decide) (by decide) (by decide) (by decide)
     (Or.inr (by decide))⟩

/-- Counterexample to C4 as stated: on the variant-B engine (which has no
bypass feature at all, i.e. bypass is disabled) a translation for an
unknown device - a fault - returns the REQUESTED permission (perm = 1 =
READ), not zero permission: the faulting DMA access is allowed through
untranslated. -/
theorem C4_counterexample :
    (VB.translate VB.emptyState 7 4096 1).perm = 1 ∧ (1 : Nat) ≠ IOMMU_NONE := by
  refine ⟨by decide, by decide⟩

theorem interval_cmpA_eq_zero_iff (a b : viommu_interval) :
    VA.interval_cmp a b = 0 ↔ b.low ≤ a.high ∧ a.low ≤ b.high := by
  unfold VA.interval_cmp
  split_ifs with h1 h2 <;> constructor <;> intro h <;> first | omega | simp_all

theorem lookupMappingA_eq_none_iff {m : List (viommu_interval × VA.viommu_mapping)}
    {q : viommu_interval} :
    VA.lookupMapping m q = none ↔ ∀ e ∈ m, VA.interval_cmp q e.1 ≠ 0 := by
  unfold VA.lookupMapping
  rw [List.find?_eq_none]
  constructor
  · intro h e he; simpa using h e he
  · intro h e he; simpa using h e he

theorem lookupMappingA_eq_of_unique (m : List (viommu_interval × VA.viommu_mapping))
    (q : viommu_interval) (x : viommu_interval × VA.viommu_mapping)
    (hx : x ∈ m) (hq : VA.interval_cmp q x.1 = 0)
    (huniq : ∀ y ∈ m, VA.interval_cmp q y.1 = 0 → y = x) :
    VA.lookupMapping m q = some x := by
  unfold VA.lookupMapping
  exact find?_eq_of_unique _ m x hx (by simpa using hq)
    (fun y hy hpy => huniq y hy (by simpa using hpy))

theorem disjointA_pairwise_ne (m : List (viommu_interval × VA.viommu_mapping))
    (x y : viommu_interval × VA.viommu_mapping)
    (hd : VA.MappingsDisjoint m) (hx : x ∈ m) (hy : y ∈ m) (hne : x ≠ y) :
    VA.interval_cmp x.1 y.1 ≠ 0 := by
  have hsym : Symmetric (fun a b : viommu_interval × VA.viommu_mapping =>
      VA.interval_cmp a.1 b.1 ≠ 0) := by
    intro a b hab hc
    apply hab
    rw [interval_cmpA_eq_zero_iff] at *
    exact ⟨hc.2, hc.1⟩
  exact List.Pairwise.forall hsym hd hx hy hne

theorem lookupDomain_setDomain_self (s : VA.State) (k : Nat)
    (d d0 : VA.viommu_domain) (h : VA.lookupDomain s k = some d0) :
    VA.lookupDomain (VA.setDomain s k d) k = some d := by
  unfold VA.lookupDomain VA.setDomain at *
  rw [find?_updAssoc_self]
  cases hf : s.domains.find? (fun p => p.1 == k) with
  | none => rw [hf] at h; cases h
  | some p => simp

/-- C5 (amended): an UNMAP whose range is strictly interior to one larger
stored mapping fails and leaves that mapping present and unmodified in
both engines, but the status code differs: the strict variant A
(lines 560-600) returns VIRTIO_IOMMU_S_RANGE as the claim states, while
the variant-B engine (lines 1396-1459) returns VIRTIO_IOMMU_S_INVAL
instead of RangeError (see the counterexample).  In both parts the
interval map - and with it the whole domain record - is unchanged. -/
theorem C5_interior_unmap_rejected :
    (∀ (s : VA.State) (did vs ve : Nat) (d : VA.viommu_domain)
       (k : viommu_interval) (mp : VA.viommu_mapping),
      VA.lookupDomain s did = some d →
      VA.MappingsDisjoint d.mappings →
      (k, mp) ∈ d.mappings →
      k.low < vs → ve < k.high → vs ≤ ve →
      (VA.unmap s did vs ve).2 = VIRTIO_IOMMU_S_RANGE ∧
      VA.lookupDomain (VA.unmap s did vs ve).1 did = some d) ∧
    (∀ (s : VB.State) (asid virt size : Nat) (a : VB.viommu_as)
       (k : viommu_interval) (mp : VB.viommu_mapping),
      VB.lookupAs s asid = some a →
      VB.MappingsDisjoint a.mappings →
      (k, mp) ∈ a.mappings →
      k.low = mp.virt_addr → k.high = mp.virt_addr + mp.size - 1 →
      1 ≤ size → virt + size ≤ U64 →
      1 ≤ mp.size → mp.virt_addr + mp.size ≤ U64 →
      mp.virt_addr < virt → virt + size - 1 < k.high →
      (VB.unmap s asid virt size).2.1 = VIRTIO_IOMMU_S_INVAL ∧
      VB.lookupAs (VB.unmap s asid virt size).1 asid = some a ∧
      (VB.unmap s asid virt size).2.2 = []) := by
  constructor
  · intro s did vs ve d k mp hld hdisj hmem hin1 hin2 hvv
    have hfind : VA.lookupMapping d.mappings ⟨vs, ve⟩ = some (k, mp) := by
      apply lookupMappingA_eq_of_unique
      · exact hmem
      · rw [interval_cmpA_eq_zero_iff]; dsimp only; omega
      · intro y hy hcy
        by_contra hne
        have hov := (interval_cmpA_eq_zero_iff _ _).mp hcy
        dsimp only at hov
        have hyk : VA.interval_cmp y.1 k ≠ 0 := by
          have := disjointA_pairwise_ne d.mappings y (k, mp) hdisj hy hmem hne
          simpa using this
        apply hyk
        rw [interval_cmpA_eq_zero_iff]
        omega
    have hloop : VA.unmapLoop (d.mappings.length + 1) d.mappings ⟨vs, ve⟩ =
        (d.mappings, VIRTIO_IOMMU_S_RANGE) := by
      unfold VA.unmapLoop
      rw [hfind]
      dsimp only
      rw [if_neg (show ¬ (vs ≤ k.low ∧ k.high ≤ ve) by omega)]
    have hu : VA.unmap s did vs ve =
        (VA.setDomain s did { d with mappings := d.mappings },
         VIRTIO_IOMMU_S_RANGE) := by
      unfold VA.unmap
      rw [hld]
      dsimp only
      rw [hloop]
    rw [hu]
    exact ⟨rfl, lookupDomain_setDomain_self s did _ d hld⟩
  · intro s asid virt size a k mp ha hdisj hmem hk1 hk2 hsz hno hmsz hmno hin1 hin2
    have hq : reqHigh virt size = virt + size - 1 := reqHigh_eq hsz hno
    have hmq : reqHigh mp.virt_addr mp.size = mp.virt_addr + mp.size - 1 :=
      reqHigh_eq hmsz hmno
    have hfind : VB.lookupMapping a.mappings ⟨virt, reqHigh virt size⟩ =
        some (k, mp) := by
      apply lookupMapping_eq_of_unique
      · exact hmem
      · rw [VB.interval_cmp_eq_zero_iff]; dsimp only; rw [hq]; omega
      · intro y hy hcy
        by_contra hne
        have hov := (VB.interval_cmp_eq_zero_iff _ _).mp hcy
        dsimp only at hov
        rw [hq] at hov
        have hyk : VB.interval_cmp y.1 k ≠ 0 := by
          have := disjoint_pairwise_ne a.mappings y (k, mp) hdisj hy hmem hne
          simpa using this
        apply hyk
        rw [VB.interval_cmp_eq_zero_iff]
        omega
    have hloop : VB.unmapLoop s.notifiers a.device_list (a.mappings.length + 1)
        a.mappings ⟨virt, reqHigh virt size⟩ size =
        (a.mappings, VIRTIO_IOMMU_S_INVAL, []) := by
      unfold VB.unmapLoop
      rw [hfind]
      dsimp only
      rw [if_neg (show ¬ (mp.virt_addr = virt ∧ mp.size ≤ size) by omega),
        if_neg (show ¬ (reqHigh mp.virt_addr mp.size = reqHigh virt size ∧
          mp.size ≤ size) by rw [hmq, hq]; omega),
        if_neg (show ¬ (virt < mp.virt_addr ∧
          reqHigh mp.virt_addr mp.size < reqHigh virt size) by omega)]
    have hu : VB.unmap s asid virt size =
        (VB.setAs s asid { a with mappings := a.mappings },
         VIRTIO_IOMMU_S_INVAL, []) := by
      unfold VB.unmap
      rw [ha]
      dsimp only
      rw [hloop]
    rw [hu]
    exact ⟨rfl, lookupAs_setAs_self s asid _ a ha, rfl⟩

/-- Witness for C5: domain 0 holds the mapping [0x1000, 0x1fff] (variant A
keyed directly, variant B built by map(virt 0x1000, size 0x1000));
unmapping the strictly interior range [0x1400, 0x14ff] returns RANGE on
variant A and INVAL on variant B, leaving the domain unchanged in both. -/
theorem C5_witness :
    ((VA.unmap (VA.run VA.emptyState [.attach 0 1, .map 0 4096 8191 20480 3])
        0 5120 5375).2 = VIRTIO_IOMMU_S_RANGE ∧
     VA.lookupDomain (VA.unmap (VA.run VA.emptyState
        [.attach 0 1, .map 0 4096 8191 20480 3]) 0 5120 5375).1 0 =
       some { id := 0,
              mappings := [({ low := 4096, high := 8191 },
                            { phys_addr := 20480, flags := 3 })],
              refs := 2, endpoint_list := [1] }) ∧
    ((VB.unmap (VB.run VB.emptyState [.attach 0 1 0, .map 0 4096 4096 20480 3])
        0 5120 256).2.1 = VIRTIO_IOMMU_S_INVAL ∧
     VB.lookupAs (VB.unmap (VB.run VB.emptyState
        [.attach 0 1 0, .map 0 4096 4096 20480 3]) 0 5120 256).1 0 =
       some { id := 0,
              mappings := [({ low := 4096, high := 8191 },
                            { virt_addr := 4096, phys_addr := 20480,
                              size := 4096, flags := 3 })],
              refs := 2, device_list := [1] } ∧
     (VB.unmap (VB.run VB.emptyState [.attach 0 1 0, .map 0 4096 4096 20480 3])
        0 5120 256).2.2 = []) :=
  ⟨C5_interior_unmap_rejected.1
     (VA.run VA.emptyState [.attach 0 1, .map 0 4096 8191 20480 3])
     0 5120 5375
     { id := 0,
       mappings := [({ low := 4096, high := 8191 },
                     { phys_addr := 20480, flags := 3 })],
       refs := 2, endpoint_list := [1] }
     { low := 4096, high := 8191 } { phys_addr := 20480, flags := 3 }
     (by decide) (by simp [VA.MappingsDisjoint]) (by decide)
     (by decide) (by decide) (by decide),
   C5_interior_unmap_rejected.2
     (VB.run VB.emptyState [.attach 0 1 0, .map 0 4096 4096 20480 3])
     0 5120 256
     { id := 0,
       mappings := [({ low := 4096, high := 8191 },
                     { virt_addr := 4096, phys_addr := 20480,
                       size := 4096, flags := 3 })],
       refs := 2, device_list := [1] }
     { low := 4096, high := 8191 }
     { virt_addr := 4096, phys_addr := 20480, size := 4096, flags := 3 }
     (by decide) (by simp [VB.MappingsDisjoint]) (by decide)
     (by decide) (by decide) (by decide) (by decide) (by decide) (by decide)
     (by decide) (by decide)⟩

/-- Counterexample to C5 as stated: on the variant-B engine (one of the
two cited unmap implementations), unmapping the strictly interior range
[0x1400, 0x14ff] of the stored mapping [0x1000, 0x1fff] fails with
VIRTIO_IOMMU_S_INVAL = 4, not with RangeError (VIRTIO_IOMMU_S_RANGE = 5)
as the claim states; the mapping itself does remain unmodified. -/
theorem C5_counterexample :
    (VB.unmap (VB.run VB.emptyState [.attach 0 1 0, .map 0 4096 4096 20480 3])
        0 5120 256).2.1 = VIRTIO_IOMMU_S_INVAL ∧
    VIRTIO_IOMMU_S_INVAL ≠ VIRTIO_IOMMU_S_RANGE ∧
    VB.lookupAs (VB.unmap (VB.run VB.emptyState
        [.attach 0 1 0, .map 0 4096 4096 20480 3]) 0 5120 256).1 0 =
      some { id := 0,
             mappings := [({ low := 4096, high := 8191 },
                           { virt_addr := 4096, phys_addr := 20480,
                             size := 4096, flags := 3 })],
             refs := 2, device_list := [1] } := by
  refine ⟨by decide, by decide, by decide⟩

/-- C6 (confirmed): UNMAP is not atomic across multiple affected entries.
Concretely, on the strict variant-A engine, with domain 0 holding the
entries [0, 9] and [10, 29], the single call unmap([0, 15]) first removes
the fully covered entry [0, 9], then finds [10, 29] - not fully covered,
so removing it would split it - and fails with VIRTIO_IOMMU_S_RANGE; the
call returns the error, yet the earlier removal of [0, 9] performed by
the same call stays committed: afterwards only [10, 29] remains. -/
theorem C6_unmap_not_atomic :
    VA.lookupDomain (VA.run VA.emptyState
        [.attach 0 1, .map 0 0 9 100 3, .map 0 10 29 200 3]) 0 =
      some { id := 0,
             mappings := [({ low := 0, high := 9 }, { phys_addr := 100, flags := 3 }),
                          ({ low := 10, high := 29 }, { phys_addr := 200, flags := 3 })],
             refs := 2, endpoint_list := [1] } ∧
    (VA.step (VA.run VA.emptyState
        [.attach 0 1, .map 0 0 9 100 3, .map 0 10 29 200 3]) (.unmap 0 0 15)).2 =
      VIRTIO_IOMMU_S_RANGE ∧
    VA.lookupDomain (VA.step (VA.run VA.emptyState
        [.attach 0 1, .map 0 0 9 100 3, .map 0 10 29 200 3]) (.unmap 0 0 15)).1 0 =
      some { id := 0,
             mappings := [({ low := 10, high := 29 }, { phys_addr := 200, flags := 3 })],
             refs := 2, endpoint_list := [1] } := by
  refine ⟨by decide, by decide, by decide⟩

theorem lookupAs_setDevAs (s : VB.State) (d : Nat) (v : Option Nat) (k : Nat) :
    VB.lookupAs (VB.setDevAs s d v) k = VB.lookupAs s k := rfl

theorem lookupDev_setAs (s : VB.State) (k : Nat) (a : VB.viommu_as) (d : Nat) :
    VB.lookupDev (VB.setAs s k a) d = VB.lookupDev s d := rfl

theorem lookupDev_setDevAs_self (s : VB.State) (d : Nat) (v : Option Nat)
    (dev : VB.viommu_dev) (h : VB.lookupDev s d = some dev) :
    VB.lookupDev (VB.setDevAs s d v) d = some { dev with as := v } := by
  unfold VB.lookupDev VB.setDevAs at *
  rw [find?_updAssoc_self]
  cases hf : s.devices.find? (fun p => p.1 == d) with
  | none => rw [hf] at h; cases h
  | some p =>
    rw [hf] at h
    have h2 : p.2 = dev := by simpa using h
    simp [h2]

theorem get_dev_eval_some (s : VB.State) (d : Nat) (dev : VB.viommu_dev)
    (h : VB.lookupDev s d = some dev) : VB.get_dev s d = (s, dev) := by
  unfold VB.get_dev
  rw [h]

theorem get_as_eval_some (s : VB.State) (k : Nat) (a : VB.viommu_as)
    (h : VB.lookupAs s k = some a) : VB.get_as s k = (s, a) := by
  unfold VB.get_as
  rw [h]

theorem detach_dev_eval (s : VB.State) (devid old : Nat) (dev : VB.viommu_dev)
    (oa : VB.viommu_as) (hdev : VB.lookupDev s devid = some dev)
    (has : dev.as = some old) (ho : VB.lookupAs s old = some oa) :
    VB.detach_dev_from_as s devid =
      (VB.setDevAs (VB.setAs s old
          { oa with device_list := oa.device_list.erase devid }) devid none,
       VB.eventsFor s.notifiers devid
         (fun e => VB.Event.unmap devid e.2.virt_addr e.2.size) oa.mappings) := by
  unfold VB.detach_dev_from_as
  rw [hdev]
  dsimp only
  rw [has]
  dsimp only
  rw [ho]

/-- C7 (confirmed): on the variant-B engine, attaching an
already-attached device to a different, existing domain (with the
reserved field zero) succeeds with OK; the device is first detached from
its old domain (removed from its device list, the old domain's
per-mapping unmap notifications preceding everything else) and then
attached to the target domain: it is recorded at the head of the target's
device list, the target's interval-map reference count is incremented,
the target's existing mappings are replayed as map events to any notifier
registered for the device, and every subsequent translation for the
device resolves through the new domain's mappings only. -/
theorem C7_attach_implicit_detach (s : VB.State) (devid oldAsid newAsid : Nat)
    (dev : VB.viommu_dev) (oa na : VB.viommu_as)
    (hdev : VB.lookupDev s devid = some dev)
    (has : dev.as = some oldAsid)
    (hold : VB.lookupAs s oldAsid = some oa)
    (hnew : VB.lookupAs s newAsid = some na)
    (hne : oldAsid ≠ newAsid) :
    (VB.attach s newAsid devid 0).2.1 = VIRTIO_IOMMU_S_OK ∧
    VB.lookupDev (VB.attach s newAsid devid 0).1 devid =
      some { dev with as := some newAsid } ∧
    VB.lookupAs (VB.attach s newAsid devid 0).1 newAsid =
      some { na with device_list := devid :: na.device_list, refs := na.refs + 1 } ∧
    VB.lookupAs (VB.attach s newAsid devid 0).1 oldAsid =
      some { oa with device_list := oa.device_list.erase devid } ∧
    (VB.attach s newAsid devid 0).2.2 =
      VB.eventsFor s.notifiers devid
        (fun e => VB.Event.unmap devid e.2.virt_addr e.2.size) oa.mappings ++
      VB.eventsFor s.notifiers devid
        (fun e => VB.Event.map devid e.2.virt_addr e.2.phys_addr e.2.size)
        na.mappings ∧
    (∀ addr flag, VB.translate (VB.attach s newAsid devid 0).1 devid addr flag =
      VB.translateFound na.mappings addr flag) := by
  have hdet := detach_dev_eval s devid oldAsid dev oa hdev has hold
  have h3 : VB.lookupAs (VB.setDevAs (VB.setAs s oldAsid
      { oa with device_list := oa.device_list.erase devid }) devid none)
      newAsid = some na := by
    rw [lookupAs_setDevAs, lookupAs_setAs_ne s oldAsid newAsid _ (Ne.symm hne)]
    exact hnew
  have hatt : VB.attach s newAsid devid 0 =
      (VB.setDevAs (VB.setAs (VB.setDevAs (VB.setAs s oldAsid
          { oa with device_list := oa.device_list.erase devid }) devid none)
          newAsid
          { na with device_list := devid :: na.device_list, refs := na.refs + 1 })
        devid (some newAsid),
       VIRTIO_IOMMU_S_OK,
       VB.eventsFor s.notifiers devid
         (fun e => VB.Event.unmap devid e.2.virt_addr e.2.size) oa.mappings ++
       VB.eventsFor s.notifiers devid
         (fun e => VB.Event.map devid e.2.virt_addr e.2.phys_addr e.2.size)
         na.mappings) := by
    unfold VB.attach
    rw [if_neg (by decide)]
    rw [get_dev_eval_some s devid dev hdev]
    dsimp only
    rw [has]
    dsimp only
    rw [hdet]
    dsimp only
    rw [get_as_eval_some _ newAsid na h3]
  have hdev4 : VB.lookupDev (VB.attach s newAsid devid 0).1 devid =
      some { dev with as := some newAsid } := by
    rw [hatt]
    dsimp only
    have hd2 : VB.lookupDev (VB.setAs s oldAsid
        { oa with device_list := oa.device_list.erase devid }) devid =
        some dev := by rw [lookupDev_setAs]; exact hdev
    have hd3 := lookupDev_setDevAs_self _ devid none dev hd2
    have hd4 : VB.lookupDev (VB.setAs (VB.setDevAs (VB.setAs s oldAsid
        { oa with device_list := oa.device_list.erase devid }) devid none)
        newAsid
        { na with device_list := devid :: na.device_list, refs := na.refs + 1 })
        devid = some { dev with as := none } := by
      rw [lookupDev_setAs]; exact hd3
    exact lookupDev_setDevAs_self _ devid (some newAsid) { dev with as := none } hd4
  refine ⟨by rw [hatt], hdev4, ?_, ?_, by rw [hatt], ?_⟩
  · rw [hatt]
    dsimp only
    rw [lookupAs_setDevAs]
    exact lookupAs_setAs_self _ newAsid _ na h3
  · rw [hatt]
    dsimp only
    rw [lookupAs_setDevAs, lookupAs_setAs_ne _ newAsid oldAsid _ hne,
      lookupAs_setDevAs]
    exact lookupAs_setAs_self s oldAsid _ oa hold
  · intro addr flag
    unfold VB.translate
    rw [hdev4]
    dsimp only
    rw [hatt]
    dsimp only
    rw [lookupAs_setDevAs]
    rw [lookupAs_setAs_self _ newAsid _ na h3]

/-- Witness for C7: in exampleAttachState, device 7 (with a registered
notifier) is attached to domain 1; attaching it to the existing domain 2
succeeds, moves it between the device lists, increments domain 2's
reference count, emits the old domain's unmap event followed by the new
domain's replayed map event, and translation for device 7 now resolves
through domain 2's mappings. -/
theorem C7_witness :
    (VB.attach exampleAttachState 2 7 0).2.1 = VIRTIO_IOMMU_S_OK ∧
    VB.lookupDev (VB.attach exampleAttachState 2 7 0).1 7 =
      some { id := 7, as := some 2, reserved_regions := [] } ∧
    VB.lookupAs (VB.attach exampleAttachState 2 7 0).1 2 =
      some { id := 2, mappings := [({ low := 4096, high := 8191 },
              { virt_addr := 4096, phys_addr := 20480, size := 4096, flags := 3 })],
             refs := 2, device_list := [7] } ∧
    VB.lookupAs (VB.attach exampleAttachState 2 7 0).1 1 =
      some { id := 1, mappings := [({ low := 0, high := 15 },
              { virt_addr := 0, phys_addr := 100, size := 16, flags := 3 })],
             refs := 2, device_list := [] } ∧
    (VB.attach exampleAttachState 2 7 0).2.2 =
      [VB.Event.unmap 7 0 16, VB.Event.map 7 4096 20480 4096] ∧
    VB.translate (VB.attach exampleAttachState 2 7 0).1 7 4176 1 =
      VB.translateFound [({ low := 4096, high := 8191 },
        { virt_addr := 4096, phys_addr := 20480, size := 4096, flags := 3 })]
        4176 1 :=
  (fun h => ⟨h.1, h.2.1, h.2.2.1, h.2.2.2.1,
    Eq.trans h.2.2.2.2.1 (by decide), h.2.2.2.2.2 4176 1⟩)
    (C7_attach_implicit_detach exampleAttachState 7 1 2
      { id := 7, as := some 1, reserved_regions := [] }
      { id := 1, mappings := [({ low := 0, high := 15 },
          { virt_addr := 0, phys_addr := 100, size := 16, flags := 3 })],
        refs := 2, device_list := [7] }
      { id := 2, mappings := [({ low := 4096, high := 8191 },
          { virt_addr := 4096, phys_addr := 20480, size := 4096, flags := 3 })],
        refs := 1, device_list := [] }
      (by decide) (by decide) (by decide) (by decide) (by decide))

/-- C8 (amended): PROBE on an unknown device fails, but with -EINVAL (an
invalid-request-style errno), not a NotFound status; and for any known
device PROBE always returns VIRTIO_IOMMU_S_OK - when the serialized
properties would exceed the fixed 512-byte buffer the overflow is only
detected internally (fill_property returns -ENOSPC and sets the buffer
error flag, with the filled byte count logged) and no InsufficientSpace
status ever reaches the guest (see the counterexample). -/
theorem C8_probe_status (s : VB.State) (devid : Nat) :
    (VB.lookupDev s devid = none →
      VB.probe s devid = (-EINVAL, 0, false)) ∧
    (∀ dev, VB.lookupDev s devid = some dev →
      (VB.probe s devid).1 = VIRTIO_IOMMU_S_OK) := by
  constructor
  · intro h
    unfold VB.probe
    rw [h]
  · intro dev h
    unfold VB.probe
    rw [h]

/-- Witness for C8: probing device 3 on the empty state fails with
-EINVAL; probing device 3 in exampleProbeState (whose properties
overflow the buffer) still reports VIRTIO_IOMMU_S_OK. -/
theorem C8_witness :
    VB.probe VB.emptyState 3 = (-EINVAL, 0, false) ∧
    (VB.probe exampleProbeState 3).1 = VIRTIO_IOMMU_S_OK :=
  ⟨(C8_probe_status VB.emptyState 3).1 (by decide),
   (C8_probe_status exampleProbeState 3).2
     { id := 3, as := none, reserved_regions := List.replicate 19 ⟨0, 0, 0, 0⟩ }
     (by decide)⟩

/-- Counterexample to C8 as stated: in exampleProbeState the serialized
properties of device 3 need 19 * 28 + 4 = 536 > 512 bytes, the fill loop
sets the internal error flag after writing 532 bytes - yet the command
returns VIRTIO_IOMMU_S_OK (0), not an InsufficientSpace failure
(-ENOSPC = -28): the overflow status is swallowed and never reported to
the guest. -/
theorem C8_counterexample :
    VB.probe exampleProbeState 3 = (VIRTIO_IOMMU_S_OK, 532, true) ∧
    VIRTIO_IOMMU_S_OK ≠ -ENOSPC ∧
    19 * (VB.sizeof_probe_resv_mem + 4) + 4 = 536 ∧ 512 < 536 := by
  refine ⟨by decide, by decide, by decide, by decide⟩

theorem get_dev_eval_none (s : VB.State) (d : Nat)
    (h : VB.lookupDev s d = none) :
    VB.get_dev s d =
      ({ s with devices := (d, ⟨d, none, []⟩) :: s.devices },
       { id := d, as := none, reserved_regions := [] }) := by
  unfold VB.get_dev
  rw [h]

theorem get_as_eval_none (s : VB.State) (k : Nat)
    (h : VB.lookupAs s k = none) :
    VB.get_as s k =
      ({ s with address_spaces := (k, ⟨k, [], 1, []⟩) :: s.address_spaces },
       { id := k, mappings := [], refs := 1, device_list := [] }) := by
  unfold VB.get_as
  rw [h]

theorem lookupAs_cons_self (s : VB.State) (k : Nat) (a : VB.viommu_as) :
    VB.lookupAs { s with address_spaces := (k, a) :: s.address_spaces } k =
      some a := by
  unfold VB.lookupAs
  rw [List.find?_cons_of_pos _ (by simp)]
  rfl

/-- C9 (amended): a Domain is lazily created on first reference by an
ATTACH command naming it (created with an empty interval map; the attach
leaves it with reference count 2 and the device in its list), but NOT by
a MAP command: MAP on a domain identifier absent from the registry fails
with VIRTIO_IOMMU_S_NOENT and changes nothing (see counterexample). -/
theorem C9_lazy_domain_creation (s : VB.State)
    (asid devid virt size phys flags : Nat) :
    (VB.lookupAs s asid = none →
      VB.map s asid virt size phys flags = (s, VIRTIO_IOMMU_S_NOENT, [])) ∧
    (VB.lookupAs s asid = none → VB.lookupDev s devid = none →
      (VB.attach s asid devid 0).2.1 = VIRTIO_IOMMU_S_OK ∧
      VB.lookupAs (VB.attach s asid devid 0).1 asid =
        some { id := asid, mappings := [], refs := 2, device_list := [devid] }) := by
  constructor
  · intro h
    unfold VB.map
    rw [h]
  · intro ha hd
    have h1 := get_dev_eval_none s devid hd
    have ha1 : VB.lookupAs { s with devices :=
        (devid, ⟨devid, none, []⟩) :: s.devices } asid = none := ha
    have h2 := get_as_eval_none _ asid ha1
    have hatt : VB.attach s asid devid 0 =
        (VB.setDevAs (VB.setAs { s with
            devices := (devid, ⟨devid, none, []⟩) :: s.devices,
            address_spaces := (asid, ⟨asid, [], 1, []⟩) :: s.address_spaces } asid
            { id := asid, mappings := [], refs := 2, device_list := [devid] })
          devid (some asid),
         VIRTIO_IOMMU_S_OK,
         VB.eventsFor s.notifiers devid
           (fun e => VB.Event.map devid e.2.virt_addr e.2.phys_addr e.2.size)
           []) := by
      unfold VB.attach
      rw [if_neg (by decide)]
      rw [h1]
      dsimp only
      rw [h2]
      rfl
    rw [hatt]
    refine ⟨rfl, ?_⟩
    dsimp only
    rw [lookupAs_setDevAs]
    exact lookupAs_setAs_self _ asid _
      { id := asid, mappings := [], refs := 1, device_list := [] }
      (lookupAs_cons_self _ asid _)

/-- Witness for C9: on the empty state, map(domain 5, ...) fails with
NOENT, while attach(domain 5, device 9) creates domain 5 with an empty
map, reference count 2 and device 9 attached. -/
theorem C9_witness :
    (VB.map VB.emptyState 5 4096 4096 20480 3 =
      (VB.emptyState, VIRTIO_IOMMU_S_NOENT, [])) ∧
    ((VB.attach VB.emptyState 5 9 0).2.1 = VIRTIO_IOMMU_S_OK ∧
     VB.lookupAs (VB.attach VB.emptyState 5 9 0).1 5 =
       some { id := 5, mappings := [], refs := 2, device_list := [9] }) :=
  ⟨(C9_lazy_domain_creation VB.emptyState 5 9 4096 4096 20480 3).1 (by decide),
   (C9_lazy_domain_creation VB.emptyState 5 9 4096 4096 20480 3).2
     (by decide) (by decide)⟩

/-- Counterexample to C9 as stated: on the initial state no domain 5
exists; the claim says a MAP naming it lazily creates it and in
particular does not fail with NotFound, but the code returns
VIRTIO_IOMMU_S_NOENT (g_tree_lookup with no creation, lines 1344-1347)
and leaves the registry without domain 5. -/
theorem C9_counterexample :
    (VB.map VB.emptyState 5 4096 4096 20480 3).2.1 = VIRTIO_IOMMU_S_NOENT ∧
    VIRTIO_IOMMU_S_NOENT ≠ VIRTIO_IOMMU_S_OK ∧
    VB.lookupAs (VB.map VB.emptyState 5 4096 4096 20480 3).1 5 = none := by
  refine ⟨by decide, by decide, by decide⟩

/-- C10 (confirmed): an UNMAP whose range intersects no mapping entry of
an existing domain is a silent no-op: it returns VIRTIO_IOMMU_S_OK,
leaves the domain's interval map (indeed the whole domain record)
unchanged and emits no notifier events - in both the variant-B engine
(lines 1396-1459, with range [virt, virt + size - 1]) and the variant-A
engine (lines 560-600, with range [virt_start, virt_end]). -/
theorem C10_unmap_noop_ok :
    (∀ (s : VB.State) (asid virt size : Nat) (a : VB.viommu_as),
      VB.lookupAs s asid = some a →
      1 ≤ size → virt + size ≤ U64 →
      (∀ e ∈ a.mappings, virt + size - 1 < e.1.low ∨ e.1.high < virt) →
      (VB.unmap s asid virt size).2.1 = VIRTIO_IOMMU_S_OK ∧
      VB.lookupAs (VB.unmap s asid virt size).1 asid = some a ∧
      (VB.unmap s asid virt size).2.2 = []) ∧
    (∀ (s : VA.State) (did vs ve : Nat) (d : VA.viommu_domain),
      VA.lookupDomain s did = some d →
      (∀ e ∈ d.mappings, ve < e.1.low ∨ e.1.high < vs) →
      (VA.unmap s did vs ve).2 = VIRTIO_IOMMU_S_OK ∧
      VA.lookupDomain (VA.unmap s did vs ve).1 did = some d) := by
  constructor
  · intro s asid virt size a ha hsz hno hdisj
    have hq : reqHigh virt size = virt + size - 1 := reqHigh_eq hsz hno
    have hnone : VB.lookupMapping a.mappings ⟨virt, reqHigh virt size⟩ = none := by
      rw [VB.lookupMapping_eq_none_iff]
      intro e he
      rw [Ne, VB.interval_cmp_eq_zero_iff]
      dsimp only
      rw [hq]
      rcases hdisj e he with h | h <;> omega
    have hloop : VB.unmapLoop s.notifiers a.device_list (a.mappings.length + 1)
        a.mappings ⟨virt, reqHigh virt size⟩ size =
        (a.mappings, VIRTIO_IOMMU_S_OK, []) := by
      unfold VB.unmapLoop
      rw [hnone]
    have hu : VB.unmap s asid virt size =
        (VB.setAs s asid { a with mappings := a.mappings },
         VIRTIO_IOMMU_S_OK, []) := by
      unfold VB.unmap
      rw [ha]
      dsimp only
      rw [hloop]
    rw [hu]
    exact ⟨rfl, lookupAs_setAs_self s asid _ a ha, rfl⟩
  · intro s did vs ve d hld hdisj
    have hnone : VA.lookupMapping d.mappings ⟨vs, ve⟩ = none := by
      rw [lookupMappingA_eq_none_iff]
      intro e he
      rw [Ne, interval_cmpA_eq_zero_iff]
      dsimp only
      rcases hdisj e he with h | h <;> omega
    have hloop : VA.unmapLoop (d.mappings.length + 1) d.mappings ⟨vs, ve⟩ =
        (d.mappings, VIRTIO_IOMMU_S_OK) := by
      unfold VA.unmapLoop
      rw [hnone]
    have hu : VA.unmap s did vs ve =
        (VA.setDomain s did { d with mappings := d.mappings },
         VIRTIO_IOMMU_S_OK) := by
      unfold VA.unmap
      rw [hld]
      dsimp only
      rw [hloop]
    rw [hu]
    exact ⟨rfl, lookupDomain_setDomain_self s did _ d hld⟩

/-- Witness for C10: domain 0 holds only [0x1000, 0x1fff]; unmapping
[0, 15], a range intersecting nothing, returns OK and leaves the domain
unchanged in both variants (with no events on variant B). -/
theorem C10_witness :
    ((VB.unmap (VB.run VB.emptyState [.attach 0 1 0, .map 0 4096 4096 20480 3])
        0 0 16).2.1 = VIRTIO_IOMMU_S_OK ∧
     VB.lookupAs (VB.unmap (VB.run VB.emptyState
        [.attach 0 1 0, .map 0 4096 4096 20480 3]) 0 0 16).1 0 =
       some { id := 0, mappings := [({ low := 4096, high := 8191 },
               { virt_addr := 4096, phys_addr := 20480, size := 4096, flags := 3 })],
              refs := 2, device_list := [1] } ∧
     (VB.unmap (VB.run VB.emptyState [.attach 0 1 0, .map 0 4096 4096 20480 3])
        0 0 16).2.2 = []) ∧
    ((VA.unmap (VA.run VA.emptyState [.attach 0 1, .map 0 4096 8191 20480 3])
        0 0 15).2 = VIRTIO_IOMMU_S_OK ∧
     VA.lookupDomain (VA.unmap (VA.run VA.emptyState
        [.attach 0 1, .map 0 4096 8191 20480 3]) 0 0 15).1 0 =
       some { id := 0, mappings := [({ low := 4096, high := 8191 },
               { phys_addr := 20480, flags := 3 })],
              refs := 2, endpoint_list := [1] }) :=
  ⟨C10_unmap_noop_ok.1
     (VB.run VB.emptyState [.attach 0 1 0, .map 0 4096 4096 20480 3]) 0 0 16
     { id := 0, mappings := [({ low := 4096, high := 8191 },
         { virt_addr := 4096, phys_addr := 20480, size := 4096, flags := 3 })],
       refs := 2, device_list := [1] }
     (by decide) (by decide) (by decide) (by decide),
   C10_unmap_noop_ok.2
     (VA.run VA.emptyState [.attach 0 1, .map 0 4096 8191 20480 3]) 0 0 15
     { id := 0, mappings := [({ low := 4096, high := 8191 },
         { phys_addr := 20480, flags := 3 })],
       refs := 2, endpoint_list := [1] }
     (by decide) (by decide)⟩
